import Mathlib

/-!
# SchemaSync — verification of the schema diff / migration core

Shallow embedding of the SchemaSync repository (Rust) in Lean 4:

* `schema/types.rs` — the canonical schema data model,
* `schema/diff.rs` — `SchemaDiff::generate`, `column_needs_alteration`, `is_empty`,
* `schema/generator.rs` — `MigrationGenerator::generate_migration_sql` and its
  per-unit SQL generators,
* `models/registry.rs` — `ModelRegistry::map_type_to_db_type`,
* `db/migrations.rs` + `lib.rs` — the migration executor (modelled as an
  effect trace of SQL statements sent to the connection and files written),
* `utils/naming.rs` — `truncate_identifier`, together with an executable
  model of the MD5 digest it relies on (the `md5` crate).

Rust `HashMap<String, V>` values are modelled as association lists
`List (String × V)` in iteration order; a well-formed map has `Nodup` keys,
which theorems assume explicitly where they need it.  Rust strings are
Lean `String`s except in `truncate_identifier`, which operates on raw UTF-8
bytes (`name.len()`, byte slicing, MD5 over bytes) and is therefore modelled
over byte lists `List Nat`.
-/

namespace SchemaSync

/-! ## Association-list model of `HashMap<String, V>` -/

/-- `HashMap::contains_key`. -/
def containsKey {α : Type} (m : List (String × α)) (k : String) : Bool :=
  m.any (fun p => p.1 == k)

/-- `HashMap::get` (unique keys in a well-formed map make the first hit the hit). -/
def getValue {α : Type} (m : List (String × α)) (k : String) : Option α :=
  (m.find? (fun p => p.1 == k)).map (·.2)

/-- `HashMap::get` with a default for a missing key. -/
def getValueD {α : Type} (m : List (String × α)) (k : String) (d : α) : α :=
  (getValue m k).getD d

/-! ## Substring test (Rust `str::contains`) -/

/-- Whether `pat` occurs at the head of `s` (`str::starts_with` on char lists). -/
def isPrefixB : List Char → List Char → Bool
  | [], _ => true
  | _ :: _, [] => false
  | a :: as_, b :: bs => a == b && isPrefixB as_ bs

/-- Whether `pat` occurs anywhere in `s` (`str::contains` on char lists). -/
def containsB (pat : List Char) : List Char → Bool
  | [] => pat.isEmpty
  | b :: bs => isPrefixB pat (b :: bs) || containsB pat bs

/-- `str::contains` for `String`s: does `s` contain `pat`? -/
def strContains (s pat : String) : Bool :=
  containsB pat.data s.data

/-- A single-quote character as a string (SQL quote, built by code point). -/
def sq : String := String.singleton (Char.ofNat 39)

/-- `str::replace('\'', "''")` used when embedding comments in SQL. -/
def escapeSqlQuote (s : String) : String := s.replace sq (sq ++ sq)

/-! ## Schema data model (`schema/types.rs`) -/

/-- `Column` of `schema/types.rs`. -/
structure Column where
  name : String
  data_type : String
  nullable : Bool
  default : Option String
  comment : Option String
  is_unique : Bool
  is_generated : Bool
  generation_expression : Option String
deriving DecidableEq

/-- `PrimaryKey` of `schema/types.rs`. -/
structure PrimaryKey where
  name : Option String
  columns : List String
deriving DecidableEq

/-- `Index` of `schema/types.rs`. -/
structure Index where
  name : String
  columns : List String
  is_unique : Bool
  method : Option String
deriving DecidableEq

/-- `ForeignKey` of `schema/types.rs`. -/
structure ForeignKey where
  name : String
  columns : List String
  ref_table : String
  ref_columns : List String
  on_delete : Option String
  on_update : Option String
deriving DecidableEq

/-- `Constraint` of `schema/types.rs`. -/
structure Constraint where
  name : String
  definition : String
  constraint_type : String
deriving DecidableEq

/-- `Table` of `schema/types.rs`. -/
structure Table where
  name : String
  columns : List Column
  primary_key : Option PrimaryKey
  indexes : List Index
  foreign_keys : List ForeignKey
  constraints : List Constraint
  comment : Option String
deriving DecidableEq

/-- `View` of `schema/types.rs`. -/
structure View where
  name : String
  definition : String
  columns : List Column
  is_materialized : Bool
deriving DecidableEq

/-- `DatabaseSchema` of `schema/types.rs`; the `HashMap`s become assoc lists. -/
structure DatabaseSchema where
  tables : List (String × Table)
  views : List (String × View)
  schema_name : Option String
deriving DecidableEq

/-! ## Configuration (`config.rs`), restricted to the sections the core reads -/

/-- `DatabaseConfig` of `config.rs`. -/
structure DatabaseConfig where
  driver : String
  url : String
  pool_size : Option Nat
  timeout_seconds : Option Nat
  schema : Option String
  enable_ssl : Option Bool
deriving DecidableEq

/-- `MigrationsConfig` of `config.rs`. -/
structure MigrationsConfig where
  directory : String
  naming : String
  auto_generate : Bool
  auto_apply : Bool
  transaction_per_migration : Bool
  dry_run : Bool
  backup_before_migrate : Bool
  history_table : String
deriving DecidableEq

/-- `SchemaConfig` of `config.rs` (the diff policy flags). -/
structure SchemaConfig where
  strict_mode : Bool
  allow_column_removal : Bool
  allow_table_removal : Bool
  default_nullable : Bool
  index_foreign_keys : Bool
  unique_constraints_as_indices : Bool
  add_updated_at_column : Bool
  add_created_at_column : Bool
deriving DecidableEq

/-- `CustomTypeMapping` of `config.rs`. -/
structure CustomTypeMapping where
  rust_type : String
  db_type : String
deriving DecidableEq

/-- `TypeMappingConfig` of `config.rs`; the override `HashMap` becomes an assoc list. -/
structure TypeMappingConfig where
  custom : Option (List CustomTypeMapping)
  override_ : Option (List (String × String))
deriving DecidableEq

/-- `Config` of `config.rs`, restricted to the sections read by the modelled
core (`models`, `naming`, `logging`, `hooks`, `output`, `security`,
`performance` are never consulted by the functions embedded here). -/
structure Config where
  database : DatabaseConfig
  migrations : MigrationsConfig
  schema : SchemaConfig
  type_mapping : TypeMappingConfig
deriving DecidableEq

/-! ## Error type (`error.rs`) -/

/-- `Error` of `error.rs` (the `#[from]` payloads become their messages). -/
inductive Error where
  | ConfigError (msg : String)
  | DatabaseError (msg : String)
  | SchemaAnalysisError (msg : String)
  | MigrationError (msg : String)
  | ModelRegistrationError (msg : String)
  | TypeMappingError (msg : String)
  | IoError (msg : String)
  | SqlxError (msg : String)
  | SerializationError (msg : String)
  | ValidationError (msg : String)
deriving DecidableEq

/-- `Result<T>` of `error.rs`. -/
abbrev SResult (α : Type) : Type := Except Error α

/-! ## Schema diff (`schema/diff.rs`) -/

/-- `ColumnChange` of `schema/diff.rs` (`from`/`to` are keywords in Lean,
hence the trailing underscores). -/
structure ColumnChange where
  column_name : String
  from_ : Column
  to_ : Column
deriving DecidableEq

/-- `SchemaDiff` of `schema/diff.rs`; the per-table `HashMap`s become assoc
lists in insertion order. -/
structure SchemaDiff where
  tables_to_create : List Table
  tables_to_drop : List String
  columns_to_add : List (String × List Column)
  columns_to_drop : List (String × List String)
  columns_to_alter : List (String × List ColumnChange)
  indices_to_create : List (String × List String)
  indices_to_drop : List (String × List String)
  foreign_keys_to_create : List (String × List String)
  foreign_keys_to_drop : List (String × List String)
deriving DecidableEq

/-- Membership test of a column name in a `Vec<Column>`
(`HashMap::contains_key` on the map collected from the vector). -/
def colContains (cols : List Column) (n : String) : Bool :=
  cols.any (fun c => c.name == n)

/-- Lookup of a column by name in a `Vec<Column>`.  The Rust code collects the
vector into a `HashMap`, where a later duplicate name overwrites an earlier
one, so the lookup returns the *last* column with the name. -/
def colFind (cols : List Column) (n : String) : Option Column :=
  cols.reverse.find? (fun c => c.name == n)

/-- `SchemaDiff::column_needs_alteration` of `schema/diff.rs` (the
`schema_config` parameter is present but unread, as in the source). -/
def column_needs_alteration (current target : Column) (schema_config : SchemaConfig) : Bool :=
  if current.data_type != target.data_type then true
  else if current.nullable != target.nullable then true
  else if current.default != target.default then true
  else if current.is_unique != target.is_unique then true
  else false

/-- One step of the loop over `target_schema.tables` in `SchemaDiff::generate`:
threads the `(columns_to_add, columns_to_drop, columns_to_alter)` accumulators
through one `(table_name, target_table)` entry. -/
def generateStep (current_schema : DatabaseSchema) (schema_config : SchemaConfig)
    (acc : List (String × List Column) × List (String × List String) ×
           List (String × List ColumnChange))
    (p : String × Table) :
    List (String × List Column) × List (String × List String) ×
    List (String × List ColumnChange) :=
  let table_name := p.1
  let target_table := p.2
  match getValue current_schema.tables table_name with
  | some current_table =>
    let add_columns : List Column :=
      target_table.columns.filter (fun col => !(colContains current_table.columns col.name))
    let acc1 := if !add_columns.isEmpty
      then acc.1 ++ [(table_name, add_columns)] else acc.1
    let acc2 := if schema_config.allow_column_removal then
        let drop_columns : List String :=
          (current_table.columns.filter
            (fun col => !(colContains target_table.columns col.name))).map (·.name)
        if !drop_columns.isEmpty
          then acc.2.1 ++ [(table_name, drop_columns)] else acc.2.1
      else acc.2.1
    let alter_columns : List ColumnChange :=
      target_table.columns.filterMap (fun target_col =>
        match colFind current_table.columns target_col.name with
        | some current_col =>
          if column_needs_alteration current_col target_col schema_config then
            some { column_name := target_col.name, from_ := current_col, to_ := target_col }
          else none
        | none => none)
    let acc3 := if !alter_columns.isEmpty
      then acc.2.2 ++ [(table_name, alter_columns)] else acc.2.2
    (acc1, acc2, acc3)
  | none => acc

/-- `SchemaDiff::generate` of `schema/diff.rs`. -/
def SchemaDiff.generate (current_schema target_schema : DatabaseSchema)
    (schema_config : SchemaConfig) : SchemaDiff :=
  let tables_to_create : List Table :=
    (target_schema.tables.map Prod.snd).filter
      (fun table => !(containsKey current_schema.tables table.name))
  let tables_to_drop : List String :=
    if schema_config.allow_table_removal then
      (current_schema.tables.map Prod.fst).filter
        (fun name => !(containsKey target_schema.tables name))
    else []
  let cols := target_schema.tables.foldl
    (generateStep current_schema schema_config) ([], [], [])
  { tables_to_create := tables_to_create
    tables_to_drop := tables_to_drop
    columns_to_add := cols.1
    columns_to_drop := cols.2.1
    columns_to_alter := cols.2.2
    indices_to_create := []
    indices_to_drop := []
    foreign_keys_to_create := []
    foreign_keys_to_drop := [] }

/-- `SchemaDiff::is_empty` of `schema/diff.rs`. -/
def SchemaDiff.is_empty (d : SchemaDiff) : Bool :=
  d.tables_to_create.isEmpty
    && d.tables_to_drop.isEmpty
    && d.columns_to_add.isEmpty
    && d.columns_to_drop.isEmpty
    && d.columns_to_alter.isEmpty
    && d.indices_to_create.isEmpty
    && d.indices_to_drop.isEmpty
    && d.foreign_keys_to_create.isEmpty
    && d.foreign_keys_to_drop.isEmpty

/-- Per-table `columns_to_add` contribution of one target-schema entry
(the functional reading of the loop body in `SchemaDiff::generate`). -/
def addsOf (current_schema : DatabaseSchema) (p : String × Table) :
    Option (String × List Column) :=
  match getValue current_schema.tables p.1 with
  | some current_table =>
    let add_columns := p.2.columns.filter
      (fun col => !(colContains current_table.columns col.name))
    if !add_columns.isEmpty then some (p.1, add_columns) else none
  | none => none

/-- Per-table `columns_to_drop` contribution of one target-schema entry. -/
def dropsOf (current_schema : DatabaseSchema) (schema_config : SchemaConfig)
    (p : String × Table) : Option (String × List String) :=
  match getValue current_schema.tables p.1 with
  | some current_table =>
    if schema_config.allow_column_removal then
      let drop_columns := (current_table.columns.filter
        (fun col => !(colContains p.2.columns col.name))).map (·.name)
      if !drop_columns.isEmpty then some (p.1, drop_columns) else none
    else none
  | none => none

/-- The `ColumnChange` list computed for one table present in both schemas. -/
def alterColumnsOf (schema_config : SchemaConfig) (current_table target_table : Table) :
    List ColumnChange :=
  target_table.columns.filterMap (fun target_col =>
    match colFind current_table.columns target_col.name with
    | some current_col =>
      if column_needs_alteration current_col target_col schema_config then
        some { column_name := target_col.name, from_ := current_col, to_ := target_col }
      else none
    | none => none)

/-- Per-table `columns_to_alter` contribution of one target-schema entry. -/
def altersOf (current_schema : DatabaseSchema) (schema_config : SchemaConfig)
    (p : String × Table) : Option (String × List ColumnChange) :=
  match getValue current_schema.tables p.1 with
  | some current_table =>
    let alter_columns := alterColumnsOf schema_config current_table p.2
    if !alter_columns.isEmpty then some (p.1, alter_columns) else none
  | none => none

/-! ## Type mapper (`models/registry.rs`, `ModelRegistry::map_type_to_db_type`) -/

/-- The built-in default arm of `map_type_to_db_type` (the final `match
rust_type` in `models/registry.rs`), checked in source order.  Note the
`contains("DateTime")` guard precedes the `contains("NaiveDateTime")` guard,
exactly as in the source. -/
def default_type_mapping (rust_type : String) : SResult String :=
  if rust_type == "String" || rust_type == "&str" then .ok "VARCHAR(255)"
  else if rust_type == "i8" then .ok "SMALLINT"
  else if rust_type == "i16" then .ok "SMALLINT"
  else if rust_type == "i32" then .ok "INTEGER"
  else if rust_type == "i64" then .ok "BIGINT"
  else if rust_type == "u8" || rust_type == "u16" || rust_type == "u32" then .ok "INTEGER"
  else if rust_type == "u64" then .ok "BIGINT"
  else if rust_type == "f32" then .ok "REAL"
  else if rust_type == "f64" then .ok "DOUBLE PRECISION"
  else if rust_type == "bool" then .ok "BOOLEAN"
  else if strContains rust_type "Vec<u8>" then .ok "BYTEA"
  else if strContains rust_type "DateTime" then .ok "TIMESTAMP WITH TIME ZONE"
  else if strContains rust_type "NaiveDateTime" then .ok "TIMESTAMP"
  else if strContains rust_type "NaiveDate" then .ok "DATE"
  else if strContains rust_type "Uuid" then .ok "UUID"
  else if strContains rust_type "Decimal" then .ok "NUMERIC(20,6)"
  else if strContains rust_type "Json" || strContains rust_type "Value" then .ok "JSONB"
  else .error (.TypeMappingError ("No mapping found for Rust type: " ++ rust_type))

/-- First tier of `map_type_to_db_type`: scan the configured custom mappings
in order for an exact `rust_type` match (the `for` loop with early return). -/
def customMatch (config : Config) (rust_type : String) : Option CustomTypeMapping :=
  match config.type_mapping.custom with
  | some custom_mappings =>
    custom_mappings.find? (fun mapping => mapping.rust_type == rust_type)
  | none => none

/-- Second tier of `map_type_to_db_type`: exact lookup in the configured
override map. -/
def overrideMatch (config : Config) (rust_type : String) : Option String :=
  match config.type_mapping.override_ with
  | some overrides => getValue overrides rust_type
  | none => none

/-- `ModelRegistry::map_type_to_db_type` of `models/registry.rs` (the `&self`
receiver is unused by the body and dropped).  Custom mappings are scanned in
order and the first exact match wins; then the override map; then the
built-in defaults. -/
def map_type_to_db_type (rust_type : String) (config : Config) : SResult String :=
  match customMatch config rust_type with
  | some mapping => .ok mapping.db_type
  | none =>
    match overrideMatch config rust_type with
    | some db_type => .ok db_type
    | none => default_type_mapping rust_type

/-! ## Migration generator (`schema/generator.rs`)

All functions take the `Config` the Rust `MigrationGenerator` holds a
reference to; only `config.database.driver` is read. -/

/-- Extract `"(...)"` from the first `(`-to-first-`)` span of `t`
(`t.find('(')` / `t.find(')')` with an inclusive byte slice in the source;
a `)` occurring before the `(` makes the Rust slice panic and is modelled
as the empty span). -/
def parenSpan (t : String) : Option String :=
  match t.data.findIdx? (· == '('), t.data.findIdx? (· == ')') with
  | some i, some j => some ⟨(t.data.drop i).take (j + 1 - i)⟩
  | _, _ => none

/-- `MigrationGenerator::translate_data_type_for_mysql`. -/
def translate_data_type_for_mysql (pg_type : String) : String :=
  let t := pg_type.toLower
  if t == "smallint" then "SMALLINT"
  else if t == "integer" || t == "int" || t == "int4" then "INT"
  else if t == "bigint" || t == "int8" then "BIGINT"
  else if t == "real" || t == "float4" then "FLOAT"
  else if t == "double precision" || t == "float8" then "DOUBLE"
  else if t.startsWith "varchar" then
    match parenSpan t with
    | some size => "VARCHAR" ++ size
    | none => "VARCHAR(255)"
  else if t.startsWith "char" then
    match parenSpan t with
    | some size => "CHAR" ++ size
    | none => "CHAR(1)"
  else if t == "text" then "TEXT"
  else if t == "date" then "DATE"
  else if t == "timestamp" then "TIMESTAMP"
  else if t == "timestamp with time zone" || t == "timestamptz" then "TIMESTAMP"
  else if t == "time" then "TIME"
  else if t == "time with time zone" || t == "timetz" then "TIME"
  else if t == "boolean" || t == "bool" then "TINYINT(1)"
  else if t == "bytea" then "BLOB"
  else if t == "json" || t == "jsonb" then "JSON"
  else if t == "uuid" then "CHAR(36)"
  else if t.startsWith "numeric" || t.startsWith "decimal" then
    match parenSpan t with
    | some params => "DECIMAL" ++ params
    | none => "DECIMAL(10,2)"
  else if t.endsWith "[]" then "JSON"
  else pg_type

/-- The non-parenthesis arms of `translate_data_type_for_sqlite`, applied to
the lowercased type; `none` when no arm matches. -/
def sqliteTypeArm (t : String) : Option String :=
  if t == "smallint" || t == "integer" || t == "int" || t == "int4" || t == "bigint"
      || t == "int8" || t == "serial" || t == "bigserial" then some "INTEGER"
  else if t == "real" || t == "float4" || t == "double precision" || t == "float8"
      || t == "numeric" || t == "decimal" then some "REAL"
  else if t == "char" || t == "varchar" || t == "text" || t == "character varying"
      || t == "character" then some "TEXT"
  else if t == "date" || t == "timestamp" || t == "timestamp with time zone"
      || t == "timestamptz" || t == "time" || t == "time with time zone"
      || t == "timetz" then some "TEXT"
  else if t == "boolean" || t == "bool" then some "INTEGER"
  else if t == "bytea" then some "BLOB"
  else if t == "json" || t == "jsonb" then some "TEXT"
  else if t == "uuid" then some "TEXT"
  else if t.endsWith "[]" then some "TEXT"
  else none

/-- `MigrationGenerator::translate_data_type_for_sqlite`.  The source recurses
once on the base type before the first `(` (the recursive call can never reach
the parenthesis arm again, so the recursion is unrolled here). -/
def translate_data_type_for_sqlite (pg_type : String) : String :=
  let t := pg_type.toLower
  match sqliteTypeArm t with
  | some r => r
  | none =>
    if t.data.any (· == '(') then
      let base := String.mk (t.data.takeWhile (· != '('))
      match sqliteTypeArm base.toLower with
      | some r => r
      | none => "TEXT"
    else "TEXT"

/-- Column definition line of `generate_postgres_create_table_sql`. -/
def pgColumnDef (column : Column) : String :=
  let nullable := if column.nullable then "NULL" else "NOT NULL"
  let dflt := match column.default with
    | some default_val => " DEFAULT " ++ default_val
    | none => ""
  "  " ++ column.name ++ " " ++ column.data_type ++ dflt ++ " " ++ nullable

/-- `MigrationGenerator::generate_postgres_create_table_sql`. -/
def generate_postgres_create_table_sql (table : Table) : SResult String :=
  let column_defs := table.columns.map pgColumnDef
  let column_defs := column_defs ++ (match table.primary_key with
    | some pk => ["  PRIMARY KEY (" ++ String.intercalate ", " pk.columns ++ ")"]
    | none => [])
  let sql := "CREATE TABLE IF NOT EXISTS " ++ table.name ++ " (\n"
    ++ String.intercalate ",\n" column_defs ++ "\n);\n"
  let sql := sql ++ (match table.comment with
    | some comment =>
      "COMMENT ON TABLE " ++ table.name ++ " IS " ++ sq ++ escapeSqlQuote comment ++ sq ++ ";\n"
    | none => "")
  let sql := table.columns.foldl (fun sql column =>
    match column.comment with
    | some comment =>
      sql ++ "COMMENT ON COLUMN " ++ table.name ++ "." ++ column.name ++ " IS "
        ++ sq ++ escapeSqlQuote comment ++ sq ++ ";\n"
    | none => sql) sql
  let sql := table.indexes.foldl (fun sql index =>
    let uniq := if index.is_unique then "UNIQUE " else ""
    let method := index.method.getD "btree"
    sql ++ "CREATE " ++ uniq ++ "INDEX " ++ index.name ++ " ON " ++ table.name
      ++ " USING " ++ method ++ " (" ++ String.intercalate ", " index.columns ++ ");\n") sql
  let sql := table.foreign_keys.foldl (fun sql fk =>
    sql ++ "ALTER TABLE " ++ table.name ++ " ADD CONSTRAINT " ++ fk.name
      ++ " FOREIGN KEY (" ++ String.intercalate ", " fk.columns ++ ") REFERENCES "
      ++ fk.ref_table ++ " (" ++ String.intercalate ", " fk.ref_columns ++ ") ON DELETE "
      ++ fk.on_delete.getD "NO ACTION" ++ " ON UPDATE " ++ fk.on_update.getD "NO ACTION"
      ++ ";\n") sql
  .ok sql

/-- Backtick-quote an identifier (MySQL). -/
def bt (s : String) : String := "`" ++ s ++ "`"

/-- Column definition line of `generate_mysql_create_table_sql`, including the
optional column comment the source appends to the just-pushed definition. -/
def mysqlColumnDef (column : Column) : String :=
  let nullable := if column.nullable then "NULL" else "NOT NULL"
  let dflt := match column.default with
    | some default_val => " DEFAULT " ++ default_val
    | none => ""
  let d := "  " ++ bt column.name ++ " " ++ translate_data_type_for_mysql column.data_type
    ++ dflt ++ " " ++ nullable
  match column.comment with
  | some comment => d ++ " COMMENT " ++ sq ++ escapeSqlQuote comment ++ sq
  | none => d

/-- `MigrationGenerator::generate_mysql_create_table_sql`. -/
def generate_mysql_create_table_sql (table : Table) : SResult String :=
  let column_defs := table.columns.map mysqlColumnDef
  let column_defs := column_defs ++ (match table.primary_key with
    | some pk =>
      ["  PRIMARY KEY (" ++ String.intercalate ", " (pk.columns.map bt) ++ ")"]
    | none => [])
  let column_defs := column_defs ++ (table.indexes.filter (·.is_unique)).map (fun index =>
    "  UNIQUE KEY " ++ bt index.name ++ " ("
      ++ String.intercalate ", " (index.columns.map bt) ++ ")")
  let column_defs := column_defs ++ table.foreign_keys.map (fun fk =>
    "  CONSTRAINT " ++ bt fk.name ++ " FOREIGN KEY ("
      ++ String.intercalate ", " (fk.columns.map bt) ++ ") REFERENCES " ++ bt fk.ref_table
      ++ " (" ++ String.intercalate ", " (fk.ref_columns.map bt) ++ ") ON DELETE "
      ++ fk.on_delete.getD "RESTRICT" ++ " ON UPDATE " ++ fk.on_update.getD "RESTRICT")
  let table_options := ["DEFAULT CHARACTER SET=utf8mb4", "COLLATE=utf8mb4_unicode_ci"]
    ++ (match table.comment with
      | some comment => ["COMMENT=" ++ sq ++ escapeSqlQuote comment ++ sq]
      | none => [])
  let sql := "CREATE TABLE IF NOT EXISTS " ++ bt table.name ++ " (\n"
    ++ String.intercalate ",\n" column_defs
    ++ "\n) " ++ String.intercalate " " table_options ++ ";\n"
  let sql := (table.indexes.filter (fun idx => !idx.is_unique)).foldl (fun sql index =>
    sql ++ "CREATE INDEX " ++ bt index.name ++ " ON " ++ bt table.name ++ " ("
      ++ String.intercalate ", " (index.columns.map bt) ++ ");\n") sql
  .ok sql

/-- Double-quote an identifier (Postgres/SQLite quoting style). -/
def dq (s : String) : String := "\"" ++ s ++ "\""

/-- Column definition line of `generate_sqlite_create_table_sql`, including the
inline single-column primary key and conditional `AUTOINCREMENT`. -/
def sqliteColumnDef (table : Table) (column : Column) : String :=
  let nullable := if column.nullable then "" else "NOT NULL"
  let dflt := match column.default with
    | some default_val => " DEFAULT " ++ default_val
    | none => ""
  let column_def := "  " ++ dq column.name ++ " "
    ++ translate_data_type_for_sqlite column.data_type ++ dflt
  let column_def := match table.primary_key with
    | some pk =>
      if pk.columns.length == 1 && pk.columns.headD "" == column.name then
        let column_def := column_def ++ " PRIMARY KEY"
        if strContains column.data_type.toLower "int" then
          column_def ++ " AUTOINCREMENT"
        else column_def
      else column_def
    | none => column_def
  if !nullable.isEmpty then column_def ++ " " ++ nullable else column_def

/-- `MigrationGenerator::generate_sqlite_create_table_sql`. -/
def generate_sqlite_create_table_sql (table : Table) : SResult String :=
  let column_defs := table.columns.map (sqliteColumnDef table)
  let column_defs := column_defs ++ (match table.primary_key with
    | some pk =>
      if pk.columns.length > 1 then
        ["  PRIMARY KEY (" ++ String.intercalate ", " (pk.columns.map dq) ++ ")"]
      else []
    | none => [])
  let column_defs := column_defs ++ table.foreign_keys.map (fun fk =>
    let on_delete := match fk.on_delete with
      | some action => " ON DELETE " ++ action
      | none => ""
    let on_update := match fk.on_update with
      | some action => " ON UPDATE " ++ action
      | none => ""
    "  FOREIGN KEY (" ++ String.intercalate ", " (fk.columns.map dq) ++ ") REFERENCES "
      ++ dq fk.ref_table ++ " (" ++ String.intercalate ", " (fk.ref_columns.map dq) ++ ")"
      ++ on_delete ++ on_update)
  let sql := "CREATE TABLE IF NOT EXISTS " ++ dq table.name ++ " (\n"
    ++ String.intercalate ",\n" column_defs ++ "\n);\n"
  let sql := table.indexes.foldl (fun sql index =>
    let uniq := if index.is_unique then "UNIQUE " else ""
    sql ++ "CREATE " ++ uniq ++ "INDEX IF NOT EXISTS " ++ dq index.name ++ " ON "
      ++ dq table.name ++ " (" ++ String.intercalate ", " (index.columns.map dq) ++ ");\n") sql
  .ok sql

/-- `MigrationGenerator::generate_create_table_sql` (dialect dispatch). -/
def generate_create_table_sql (config : Config) (table : Table) : SResult String :=
  let db_type := config.database.driver
  if db_type == "postgres" then generate_postgres_create_table_sql table
  else if db_type == "mysql" then generate_mysql_create_table_sql table
  else if db_type == "sqlite" then generate_sqlite_create_table_sql table
  else .error (.MigrationError ("Unsupported database type: " ++ db_type))

/-- `MigrationGenerator::generate_drop_table_sql`. -/
def generate_drop_table_sql (config : Config) (table_name : String) : SResult String :=
  let db_type := config.database.driver
  if db_type == "postgres" then .ok ("DROP TABLE IF EXISTS " ++ table_name ++ ";")
  else if db_type == "mysql" then .ok ("DROP TABLE IF EXISTS " ++ bt table_name ++ ";")
  else if db_type == "sqlite" then .ok ("DROP TABLE IF EXISTS " ++ dq table_name ++ ";")
  else .error (.MigrationError ("Unsupported database type: " ++ db_type))

/-- `MigrationGenerator::generate_add_columns_sql`. -/
def generate_add_columns_sql (config : Config) (table_name : String)
    (columns : List Column) : SResult String :=
  let db_type := config.database.driver
  if db_type == "postgres" then
    .ok (columns.foldl (fun sql column =>
      let nullable := if column.nullable then "NULL" else "NOT NULL"
      let dflt := match column.default with
        | some default_val => " DEFAULT " ++ default_val
        | none => ""
      let sql := sql ++ "ALTER TABLE " ++ table_name ++ " ADD COLUMN " ++ column.name
        ++ " " ++ column.data_type ++ dflt ++ " " ++ nullable ++ ";\n"
      match column.comment with
      | some comment =>
        sql ++ "COMMENT ON COLUMN " ++ table_name ++ "." ++ column.name ++ " IS "
          ++ sq ++ escapeSqlQuote comment ++ sq ++ ";\n"
      | none => sql) "")
  else if db_type == "mysql" then
    .ok (columns.foldl (fun sql column =>
      let nullable := if column.nullable then "NULL" else "NOT NULL"
      let dflt := match column.default with
        | some default_val => " DEFAULT " ++ default_val
        | none => ""
      let column_def := "ALTER TABLE " ++ bt table_name ++ " ADD COLUMN " ++ bt column.name
        ++ " " ++ translate_data_type_for_mysql column.data_type ++ dflt
      let column_def := if !nullable.isEmpty then column_def ++ " " ++ nullable else column_def
      let column_def := match column.comment with
        | some comment => column_def ++ " COMMENT " ++ sq ++ escapeSqlQuote comment ++ sq
        | none => column_def
      sql ++ column_def ++ ";\n") "")
  else if db_type == "sqlite" then
    columns.foldlM (fun sql column =>
      if !column.nullable && column.default.isNone then
        .error (.MigrationError ("SQLite cannot add NOT NULL column " ++ sq ++ column.name
          ++ sq ++ " without default value. Consider rebuilding the entire table."))
      else
        let nullable := if column.nullable then "" else "NOT NULL"
        let dflt := match column.default with
          | some default_val => " DEFAULT " ++ default_val
          | none => ""
        let column_def := "ALTER TABLE " ++ dq table_name ++ " ADD COLUMN " ++ dq column.name
          ++ " " ++ translate_data_type_for_sqlite column.data_type ++ dflt
        let column_def := if !nullable.isEmpty then column_def ++ " " ++ nullable else column_def
        .ok (sql ++ column_def ++ ";\n")) ""
  else .error (.MigrationError ("Unsupported database type: " ++ db_type))

/-- `MigrationGenerator::generate_drop_columns_sql`. -/
def generate_drop_columns_sql (config : Config) (table_name : String)
    (column_names : List String) : SResult String :=
  let db_type := config.database.driver
  if db_type == "postgres" then
    .ok (column_names.foldl (fun sql column_name =>
      sql ++ "ALTER TABLE " ++ table_name ++ " DROP COLUMN " ++ column_name ++ ";\n") "")
  else if db_type == "mysql" then
    .ok (column_names.foldl (fun sql column_name =>
      sql ++ "ALTER TABLE " ++ bt table_name ++ " DROP COLUMN " ++ bt column_name ++ ";\n") "")
  else if db_type == "sqlite" then
    .error (.MigrationError ("SQLite does not support dropping columns directly. "
      ++ "You need to recreate the table without those columns."))
  else .error (.MigrationError ("Unsupported database type: " ++ db_type))

/-- `MigrationGenerator::generate_alter_columns_sql`. -/
def generate_alter_columns_sql (config : Config) (table_name : String)
    (column_changes : List ColumnChange) : SResult String :=
  let db_type := config.database.driver
  if db_type == "postgres" then
    .ok (column_changes.foldl (fun sql change =>
      let sql := if change.from_.data_type != change.to_.data_type then
          sql ++ "ALTER TABLE " ++ table_name ++ " ALTER COLUMN " ++ change.column_name
            ++ " TYPE " ++ change.to_.data_type ++ " USING " ++ change.column_name ++ "::"
            ++ change.to_.data_type ++ ";\n"
        else sql
      let sql := if change.from_.nullable != change.to_.nullable then
          if change.to_.nullable then
            sql ++ "ALTER TABLE " ++ table_name ++ " ALTER COLUMN " ++ change.column_name
              ++ " DROP NOT NULL;\n"
          else
            sql ++ "ALTER TABLE " ++ table_name ++ " ALTER COLUMN " ++ change.column_name
              ++ " SET NOT NULL;\n"
        else sql
      let sql := if change.from_.default != change.to_.default then
          match change.to_.default with
          | some default_val =>
            sql ++ "ALTER TABLE " ++ table_name ++ " ALTER COLUMN " ++ change.column_name
              ++ " SET DEFAULT " ++ default_val ++ ";\n"
          | none =>
            sql ++ "ALTER TABLE " ++ table_name ++ " ALTER COLUMN " ++ change.column_name
              ++ " DROP DEFAULT;\n"
        else sql
      if change.from_.comment != change.to_.comment then
        match change.to_.comment with
        | some comment =>
          sql ++ "COMMENT ON COLUMN " ++ table_name ++ "." ++ change.column_name ++ " IS "
            ++ sq ++ escapeSqlQuote comment ++ sq ++ ";\n"
        | none =>
          sql ++ "COMMENT ON COLUMN " ++ table_name ++ "." ++ change.column_name
            ++ " IS NULL;\n"
      else sql) "")
  else if db_type == "mysql" then
    .ok (column_changes.foldl (fun sql change =>
      let nullable := if change.to_.nullable then "NULL" else "NOT NULL"
      let dflt := match change.to_.default with
        | some default_val => " DEFAULT " ++ default_val
        | none => ""
      let alter_sql := "ALTER TABLE " ++ bt table_name ++ " MODIFY COLUMN "
        ++ bt change.column_name ++ " " ++ translate_data_type_for_mysql change.to_.data_type
        ++ dflt
      let alter_sql := if !nullable.isEmpty then alter_sql ++ " " ++ nullable else alter_sql
      let alter_sql := match change.to_.comment with
        | some comment => alter_sql ++ " COMMENT " ++ sq ++ escapeSqlQuote comment ++ sq
        | none => alter_sql
      sql ++ alter_sql ++ ";\n") "")
  else if db_type == "sqlite" then
    .error (.MigrationError ("SQLite does not support altering column definitions directly. "
      ++ "You need to recreate the table with the new column definitions."))
  else .error (.MigrationError ("Unsupported database type: " ++ db_type))

/-- `MigrationGenerator::generate_create_indices_sql`. -/
def generate_create_indices_sql (config : Config) (table_name : String)
    (indices : List Index) : SResult String :=
  let db_type := config.database.driver
  if db_type == "postgres" then
    .ok (indices.foldl (fun sql index =>
      let uniq := if index.is_unique then "UNIQUE " else ""
      let method := index.method.getD "btree"
      sql ++ "CREATE " ++ uniq ++ "INDEX IF NOT EXISTS " ++ index.name ++ " ON " ++ table_name
        ++ " USING " ++ method ++ " (" ++ String.intercalate ", " index.columns ++ ");\n") "")
  else if db_type == "mysql" then
    .ok (indices.foldl (fun sql index =>
      let uniq := if index.is_unique then "UNIQUE " else ""
      sql ++ "CREATE " ++ uniq ++ "INDEX " ++ bt index.name ++ " ON " ++ bt table_name
        ++ " (" ++ String.intercalate ", " (index.columns.map bt) ++ ");\n") "")
  else if db_type == "sqlite" then
    .ok (indices.foldl (fun sql index =>
      let uniq := if index.is_unique then "UNIQUE " else ""
      sql ++ "CREATE " ++ uniq ++ "INDEX IF NOT EXISTS " ++ dq index.name ++ " ON "
        ++ dq table_name ++ " (" ++ String.intercalate ", " (index.columns.map dq)
        ++ ");\n") "")
  else .error (.MigrationError ("Unsupported database type: " ++ db_type))

/-- `MigrationGenerator::generate_drop_indices_sql`. -/
def generate_drop_indices_sql (config : Config) (table_name : String)
    (index_names : List String) : SResult String :=
  let db_type := config.database.driver
  if db_type == "postgres" then
    .ok (index_names.foldl (fun sql index_name =>
      sql ++ "DROP INDEX IF EXISTS " ++ index_name ++ ";\n") "")
  else if db_type == "mysql" then
    .ok (index_names.foldl (fun sql index_name =>
      sql ++ "DROP INDEX " ++ bt index_name ++ " ON " ++ bt table_name ++ ";\n") "")
  else if db_type == "sqlite" then
    .ok (index_names.foldl (fun sql index_name =>
      sql ++ "DROP INDEX IF EXISTS " ++ dq index_name ++ ";\n") "")
  else .error (.MigrationError ("Unsupported database type: " ++ db_type))

/-- `MigrationGenerator::generate_create_foreign_keys_sql`. -/
def generate_create_foreign_keys_sql (config : Config) (table_name : String)
    (foreign_keys : List ForeignKey) : SResult String :=
  let db_type := config.database.driver
  if db_type == "postgres" then
    .ok (foreign_keys.foldl (fun sql fk =>
      sql ++ "ALTER TABLE " ++ table_name ++ " ADD CONSTRAINT " ++ fk.name
        ++ " FOREIGN KEY (" ++ String.intercalate ", " fk.columns ++ ") REFERENCES "
        ++ fk.ref_table ++ " (" ++ String.intercalate ", " fk.ref_columns ++ ") ON DELETE "
        ++ fk.on_delete.getD "NO ACTION" ++ " ON UPDATE " ++ fk.on_update.getD "NO ACTION"
        ++ ";\n") "")
  else if db_type == "mysql" then
    .ok (foreign_keys.foldl (fun sql fk =>
      sql ++ "ALTER TABLE " ++ bt table_name ++ " ADD CONSTRAINT " ++ bt fk.name
        ++ " FOREIGN KEY (" ++ String.intercalate ", " (fk.columns.map bt)
        ++ ") REFERENCES " ++ bt fk.ref_table ++ " ("
        ++ String.intercalate ", " (fk.ref_columns.map bt) ++ ") ON DELETE "
        ++ fk.on_delete.getD "RESTRICT" ++ " ON UPDATE " ++ fk.on_update.getD "RESTRICT"
        ++ ";\n") "")
  else if db_type == "sqlite" then
    .error (.MigrationError ("SQLite does not support adding foreign keys to existing tables. "
      ++ "You need to recreate the table with the foreign key constraints."))
  else .error (.MigrationError ("Unsupported database type: " ++ db_type))

/-- `MigrationGenerator::generate_drop_foreign_keys_sql`. -/
def generate_drop_foreign_keys_sql (config : Config) (table_name : String)
    (fk_names : List String) : SResult String :=
  let db_type := config.database.driver
  if db_type == "postgres" then
    .ok (fk_names.foldl (fun sql fk_name =>
      sql ++ "ALTER TABLE " ++ table_name ++ " DROP CONSTRAINT " ++ fk_name ++ ";\n") "")
  else if db_type == "mysql" then
    .ok (fk_names.foldl (fun sql fk_name =>
      sql ++ "ALTER TABLE " ++ bt table_name ++ " DROP FOREIGN KEY " ++ bt fk_name
        ++ ";\n") "")
  else if db_type == "sqlite" then
    .error (.MigrationError ("SQLite does not support dropping foreign keys from existing "
      ++ "tables. You need to recreate the table without the foreign key constraints."))
  else .error (.MigrationError ("Unsupported database type: " ++ db_type))

/-- `MigrationGenerator::find_table_by_name`. -/
def find_table_by_name (table_name : String) (diff : SchemaDiff) : Option Table :=
  diff.tables_to_create.find? (fun t => t.name == table_name)

/-- One `indices_to_create` entry of `generate_migration_sql`: zero or one
generated units, with the `find_table_by_name` / non-empty guards of the
source loop body. -/
def indexCreateUnit (config : Config) (diff : SchemaDiff)
    (table_name : String) (index_names : List String) : SResult (List String) :=
  match find_table_by_name table_name diff with
  | some table =>
    let indices := table.indexes.filter (fun idx => index_names.contains idx.name)
    if !indices.isEmpty then
      (generate_create_indices_sql config table_name indices).map (fun s => [s])
    else .ok []
  | none => .ok []

/-- One `foreign_keys_to_create` entry of `generate_migration_sql`: zero or
one generated units, with the guards of the source loop body. -/
def fkCreateUnit (config : Config) (diff : SchemaDiff)
    (table_name : String) (fk_names : List String) : SResult (List String) :=
  match find_table_by_name table_name diff with
  | some table =>
    let foreign_keys := table.foreign_keys.filter (fun fk => fk_names.contains fk.name)
    if !foreign_keys.isEmpty then
      (generate_create_foreign_keys_sql config table_name foreign_keys).map (fun s => [s])
    else .ok []
  | none => .ok []

/-- `MigrationGenerator::generate_migration_sql`: the nine phases in source
order, each pushing its units onto the output vector, any failure
short-circuiting the whole generation. -/
def generate_migration_sql (config : Config) (diff : SchemaDiff) :
    SResult (List String) := do
  let creates ← diff.tables_to_create.mapM (fun table => generate_create_table_sql config table)
  let drops ← diff.tables_to_drop.mapM (fun table_name =>
    generate_drop_table_sql config table_name)
  let col_adds ← diff.columns_to_add.mapM (fun p => generate_add_columns_sql config p.1 p.2)
  let col_drops ← diff.columns_to_drop.mapM (fun p => generate_drop_columns_sql config p.1 p.2)
  let col_alters ← diff.columns_to_alter.mapM (fun p =>
    generate_alter_columns_sql config p.1 p.2)
  let idx_creates ← diff.indices_to_create.mapM (fun p => indexCreateUnit config diff p.1 p.2)
  let idx_drops ← diff.indices_to_drop.mapM (fun p => generate_drop_indices_sql config p.1 p.2)
  let fk_creates ← diff.foreign_keys_to_create.mapM (fun p => fkCreateUnit config diff p.1 p.2)
  let fk_drops ← diff.foreign_keys_to_drop.mapM (fun p =>
    generate_drop_foreign_keys_sql config p.1 p.2)
  pure (creates ++ drops ++ col_adds ++ col_drops ++ col_alters ++ idx_creates.flatten
    ++ idx_drops ++ fk_creates.flatten ++ fk_drops)

/-! ## Migration executor (`db/migrations.rs` and `SchemaSyncClient::apply_migrations`)

Side effects are modelled as a trace: the SQL strings handed to
`DatabaseConnection::execute` in order, and the migration files written.
The trace records the statements *issued* on the success path (a failing
statement would truncate the trace after its request, which the dry-run
claims do not depend on). -/

/-- Effect trace of one executor run. -/
structure ExecTrace where
  executed : List String
  files : List (String × String)
deriving DecidableEq

/-- The `CREATE TABLE IF NOT EXISTS …` statement of
`ensure_migration_history_table` (`db/migrations.rs`), with the source's
literal layout. -/
def ensure_history_table_sql (table_name : String) : String :=
  "CREATE TABLE IF NOT EXISTS " ++ table_name ++ " (\n"
    ++ "            id SERIAL PRIMARY KEY,\n"
    ++ "            migration_id VARCHAR(255) NOT NULL,\n"
    ++ "            name VARCHAR(255) NOT NULL,\n"
    ++ "            applied_at TIMESTAMP WITH TIME ZONE NOT NULL DEFAULT CURRENT_TIMESTAMP,\n"
    ++ "            checksum VARCHAR(64) NULL,\n"
    ++ "            execution_time_ms INTEGER NULL\n"
    ++ "        )"

/-- The `INSERT INTO …` statement of `record_migration` (`db/migrations.rs`). -/
def record_migration_sql (table_name migration_id filename : String) : String :=
  "INSERT INTO " ++ table_name ++ " (migration_id, name, applied_at) VALUES ("
    ++ sq ++ migration_id ++ sq ++ ", " ++ sq ++ filename ++ sq ++ ", CURRENT_TIMESTAMP)"

/-- Zero-padded `{:04}` formatting of the in-run sequence number. -/
def pad4 (n : Nat) : String :=
  if n < 10 then "000" ++ toString n
  else if n < 100 then "00" ++ toString n
  else if n < 1000 then "0" ++ toString n
  else toString n

/-- `generate_migration_id` (`db/migrations.rs`); the `Utc::now()` timestamp
string is a parameter of the model. -/
def generate_migration_id (ts : String) (sequence : Nat) : String :=
  ts ++ "_" ++ pad4 sequence

/-- Loop body of `db::migrations::apply_migrations` for one `(index, sql)`
pair: always writes the migration file; unless `dry_run`, executes the unit
(wrapped in `BEGIN`/`COMMIT` when `transaction_per_migration`) and records it
in the history table. -/
def applyMigrationStep (ts : String) (config : MigrationsConfig)
    (acc : ExecTrace) (p : Nat × String) : ExecTrace :=
  let migration_id := generate_migration_id ts p.1
  let filename := migration_id ++ "_" ++ "schema_sync_migration" ++ ".sql"
  let filepath := config.directory ++ "/" ++ filename
  let acc := { acc with files := acc.files ++ [(filepath, p.2)] }
  if !config.dry_run then
    let acc := if config.transaction_per_migration then
        { acc with executed := acc.executed ++ ["BEGIN;", p.2, "COMMIT;"] }
      else { acc with executed := acc.executed ++ [p.2] }
    { acc with executed := acc.executed
        ++ [record_migration_sql config.history_table migration_id filename] }
  else acc

/-- `db::migrations::apply_migrations` (`db/migrations.rs`): creates the
migrations directory (not a database effect), ensures the history table
*unconditionally*, then runs the per-migration loop. -/
def db_apply_migrations (ts : String) (migrations : List String)
    (config : MigrationsConfig) : ExecTrace :=
  let init : ExecTrace := { executed := [ensure_history_table_sql config.history_table]
                            files := [] }
  migrations.enum.foldl (applyMigrationStep ts config) init

/-- `SchemaSyncClient::apply_migrations` (`lib.rs`): under `dry_run` the
migrations are only logged and the function returns without touching the
database or the filesystem; otherwise it delegates to
`db::migrations::apply_migrations`. -/
def client_apply_migrations (ts : String) (migrations : List String)
    (config : Config) : ExecTrace :=
  if config.migrations.dry_run then { executed := [], files := [] }
  else db_apply_migrations ts migrations config.migrations

/-! ## MD5 (executable model of the `md5` crate used by `truncate_identifier`)

Message and digest are byte lists (`Nat`s below 256); words are `Nat`s below
`2^32` with explicit wraparound. -/

/-- Per-round additive constants `K[i] = ⌊2³² · |sin(i+1)|⌋`. -/
def md5K : List Nat :=
  [0xd76aa478, 0xe8c7b756, 0x242070db, 0xc1bdceee,
   0xf57c0faf, 0x4787c62a, 0xa8304613, 0xfd469501,
   0x698098d8, 0x8b44f7af, 0xffff5bb1, 0x895cd7be,
   0x6b901122, 0xfd987193, 0xa679438e, 0x49b40821,
   0xf61e2562, 0xc040b340, 0x265e5a51, 0xe9b6c7aa,
   0xd62f105d, 0x02441453, 0xd8a1e681, 0xe7d3fbc8,
   0x21e1cde6, 0xc33707d6, 0xf4d50d87, 0x455a14ed,
   0xa9e3e905, 0xfcefa3f8, 0x676f02d9, 0x8d2a4c8a,
   0xfffa3942, 0x8771f681, 0x6d9d6122, 0xfde5380c,
   0xa4beea44, 0x4bdecfa9, 0xf6bb4b60, 0xbebfbc70,
   0x289b7ec6, 0xeaa127fa, 0xd4ef3085, 0x04881d05,
   0xd9d4d039, 0xe6db99e5, 0x1fa27cf8, 0xc4ac5665,
   0xf4292244, 0x432aff97, 0xab9423a7, 0xfc93a039,
   0x655b59c3, 0x8f0ccc92, 0xffeff47d, 0x85845dd1,
   0x6fa87e4f, 0xfe2ce6e0, 0xa3014314, 0x4e0811a1,
   0xf7537e82, 0xbd3af235, 0x2ad7d2bb, 0xeb86d391]

/-- Per-round left-rotation amounts. -/
def md5S : List Nat :=
  [7, 12, 17, 22, 7, 12, 17, 22, 7, 12, 17, 22, 7, 12, 17, 22,
   5, 9, 14, 20, 5, 9, 14, 20, 5, 9, 14, 20, 5, 9, 14, 20,
   4, 11, 16, 23, 4, 11, 16, 23, 4, 11, 16, 23, 4, 11, 16, 23,
   6, 10, 15, 21, 6, 10, 15, 21, 6, 10, 15, 21, 6, 10, 15, 21]

/-- The four 32-bit chaining registers. -/
structure MD5State where
  a : Nat
  b : Nat
  c : Nat
  d : Nat
deriving DecidableEq

/-- MD5 initial state. -/
def md5init : MD5State :=
  { a := 0x67452301, b := 0xefcdab89, c := 0x98badcfe, d := 0x10325476 }

/-- 32-bit left rotation (inputs below `2^32`). -/
def rotl32 (x s : Nat) : Nat :=
  ((x <<< s) ||| (x >>> (32 - s))) % 4294967296

/-- Split a list into `n`-element chunks, recursing on a fuel bound (kept
structural so that the kernel can evaluate it; with `fuel ≥ l.length` the
fuel never runs out). -/
def chunksAux (n : Nat) : Nat → List Nat → List (List Nat)
  | _, [] => []
  | 0, _ :: _ => []
  | fuel + 1, a :: l => ((a :: l).take n) :: chunksAux n fuel (l.drop (n - 1))

/-- Split a list into chunks of four (the little-endian word boundaries of a
block). -/
def chunks4 (l : List Nat) : List (List Nat) := chunksAux 4 l.length l

/-- Split a (padded) message into 64-byte blocks. -/
def chunks64 (l : List Nat) : List (List Nat) := chunksAux 64 l.length l

/-- Assemble four bytes into a little-endian 32-bit word. -/
def wordLE (bs : List Nat) : Nat :=
  bs.getD 0 0 + 256 * bs.getD 1 0 + 65536 * bs.getD 2 0 + 16777216 * bs.getD 3 0

/-- Little-endian bytes of a 32-bit word. -/
def wordBytesLE (w : Nat) : List Nat :=
  [w % 256, w / 256 % 256, w / 65536 % 256, w / 16777216 % 256]

/-- Little-endian 8-byte encoding of the message bit length. -/
def lenBytesLE (n : Nat) : List Nat :=
  [n % 256, n / 256 % 256, n / 65536 % 256, n / 16777216 % 256,
   n / 4294967296 % 256, n / 1099511627776 % 256,
   n / 281474976710656 % 256, n / 72057594037927936 % 256]

/-- MD5 padding: `0x80`, zeros to 56 mod 64, then the bit length. -/
def md5pad (msg : List Nat) : List Nat :=
  let L := msg.length
  let k := (120 - ((L + 1) % 64)) % 64
  msg ++ 128 :: List.replicate k 0 ++ lenBytesLE (8 * L)

/-- One MD5 round, at round index `i`, over message words `M`. -/
def md5step (M : List Nat) (st : MD5State) (i : Nat) : MD5State :=
  let fg : Nat × Nat :=
    if i < 16 then
      ((st.b &&& st.c) ||| ((st.b ^^^ 4294967295) &&& st.d), i)
    else if i < 32 then
      ((st.d &&& st.b) ||| ((st.d ^^^ 4294967295) &&& st.c), (5 * i + 1) % 16)
    else if i < 48 then
      (st.b ^^^ st.c ^^^ st.d, (3 * i + 5) % 16)
    else
      (st.c ^^^ (st.b ||| (st.d ^^^ 4294967295)), (7 * i) % 16)
  let f := (fg.1 + st.a + md5K.getD i 0 + M.getD fg.2 0) % 4294967296
  { a := st.d
    b := (st.b + rotl32 f (md5S.getD i 0)) % 4294967296
    c := st.b
    d := st.c }

/-- Process one 64-byte block. -/
def md5compress (st : MD5State) (block : List Nat) : MD5State :=
  let M := (chunks4 block).map wordLE
  let r := (List.range 64).foldl (md5step M) st
  { a := (st.a + r.a) % 4294967296
    b := (st.b + r.b) % 4294967296
    c := (st.c + r.c) % 4294967296
    d := (st.d + r.d) % 4294967296 }

/-- MD5 digest of a byte-list message: 16 bytes. -/
def md5digest (msg : List Nat) : List Nat :=
  let final := (chunks64 (md5pad msg)).foldl md5compress md5init
  wordBytesLE final.a ++ wordBytesLE final.b ++ wordBytesLE final.c ++ wordBytesLE final.d

/-- Lowercase hex digit of a value below 16, as a byte. -/
def hexDigitByte (n : Nat) : Nat :=
  if n < 10 then 48 + n else 87 + n

/-- The 32 lowercase hex characters of the digest, as bytes —
`format!("{:x}", md5::compute(bytes))` in `truncate_identifier`. -/
def md5hexBytes (msg : List Nat) : List Nat :=
  (md5digest msg).flatMap (fun b => [hexDigitByte (b / 16), hexDigitByte (b % 16)])

/-! ## `truncate_identifier` (`utils/naming.rs`)

The function works on the *bytes* of the name (`name.len()`, `&name[0..k]`,
`md5::compute(name.as_bytes())`), so the model takes the name as a byte
list.  `max_length - 9` is a `usize` subtraction: when `max_length < 9` (and
the name is longer than `max_length`) it overflows — a panic in debug builds,
a wraparound to a huge `keep_length` in release builds (the result then being
`name_hhhhhhhh`, longer than `max_length`).  The model returns `none` for
that case. -/

/-- `truncate_identifier` of `utils/naming.rs` over name bytes; `none` models
the `max_length - 9` underflow. -/
def truncate_identifier (name : List Nat) (max_length : Nat) : Option (List Nat) :=
  if name.length ≤ max_length then some name
  else if max_length < 9 then none
  else
    let keep_length := max_length - 9
    let hash := md5hexBytes name
    let p := if keep_length < name.length then name.take keep_length else name
    some (p ++ 95 :: hash.take 8)

/-! ## Concrete example data (inputs for witnesses and counterexamples) -/

/-- A plain non-nullable column with the given name and type. -/
def exCol (n t : String) : Column :=
  { name := n, data_type := t, nullable := false, default := none, comment := none,
    is_unique := false, is_generated := false, generation_expression := none }

/-- The `users.name` column, `NOT NULL`. -/
def colNameCol : Column := exCol "name" "VARCHAR(255)"

/-- The `users.name` column made nullable (and nothing else changed). -/
def colNameColNullable : Column := { exCol "name" "VARCHAR(255)" with nullable := true }

/-- Example table `users(id INTEGER, name VARCHAR(255))`. -/
def usersTable : Table :=
  { name := "users", columns := [exCol "id" "INTEGER", colNameCol],
    primary_key := none, indexes := [], foreign_keys := [], constraints := [],
    comment := none }

/-- `users` with the `name` column made nullable (and nothing else changed). -/
def usersTableNullable : Table :=
  { usersTable with columns := [exCol "id" "INTEGER", colNameColNullable] }

/-- Example table `posts(id INTEGER)`. -/
def postsTable : Table :=
  { name := "posts", columns := [exCol "id" "INTEGER"], primary_key := none,
    indexes := [], foreign_keys := [], constraints := [], comment := none }

/-- Schema with just `users`. -/
def schemaUsers : DatabaseSchema :=
  { tables := [("users", usersTable)], views := [], schema_name := none }

/-- Schema with `users` (nullable `name`) and `posts`. -/
def schemaUsersPosts : DatabaseSchema :=
  { tables := [("users", usersTableNullable), ("posts", postsTable)], views := [],
    schema_name := none }

/-- A conservative policy: no table or column removal. -/
def policyNoRemoval : SchemaConfig :=
  { strict_mode := false, allow_column_removal := false, allow_table_removal := false,
    default_nullable := false, index_foreign_keys := false,
    unique_constraints_as_indices := false, add_updated_at_column := false,
    add_created_at_column := false }

/-- A `DatabaseConfig` for the given driver. -/
def exDatabaseConfig (driver : String) : DatabaseConfig :=
  { driver := driver, url := "", pool_size := none, timeout_seconds := none,
    schema := none, enable_ssl := none }

/-- A `MigrationsConfig` with `dry_run` enabled. -/
def exMigrationsConfig : MigrationsConfig :=
  { directory := "migrations", naming := "timestamp", auto_generate := false,
    auto_apply := false, transaction_per_migration := false, dry_run := true,
    backup_before_migrate := false, history_table := "_schema_sync_history" }

/-- A full `Config` for the given driver (no custom/override type mappings). -/
def exConfig (driver : String) : Config :=
  { database := exDatabaseConfig driver, migrations := exMigrationsConfig,
    schema := policyNoRemoval,
    type_mapping := { custom := none, override_ := none } }

/-- A `Config` carrying a custom type mapping `i32 → SERIAL`. -/
def exConfigCustom : Config :=
  { exConfig "postgres" with
    type_mapping := { custom := some [{ rust_type := "i32", db_type := "SERIAL" }],
                      override_ := some [("i32", "BIGINT")] } }

/-- A diff with no changes at all. -/
def emptySchemaDiff : SchemaDiff :=
  { tables_to_create := [], tables_to_drop := [], columns_to_add := [],
    columns_to_drop := [], columns_to_alter := [], indices_to_create := [],
    indices_to_drop := [], foreign_keys_to_create := [], foreign_keys_to_drop := [] }

/-- The bytes of `abcdefghijkaaaaaaa2ml` (21 ASCII bytes): first member of a
concrete MD5 collision pair on the first eight hex digits. -/
def collisionName1 : List Nat :=
  [97, 98, 99, 100, 101, 102, 103, 104, 105, 106, 107,
   97, 97, 97, 97, 97, 97, 97, 50, 109, 108]

/-- The bytes of `abcdefghijkaaaaaabdhv` (21 ASCII bytes): second member of
the collision pair; it shares the first eleven bytes with `collisionName1`
and the first eight hex digits of its MD5 digest. -/
def collisionName2 : List Nat :=
  [97, 98, 99, 100, 101, 102, 103, 104, 105, 106, 107,
   97, 97, 97, 97, 97, 97, 98, 100, 104, 118]

/-- The bytes of `aaaaaaaaaa` (ten ASCII bytes), a name longer than a
maximum identifier length of nine. -/
def tenAs : List Nat := List.replicate 10 97

/-- The bytes of `bbbbbbbbbb` (ten ASCII bytes). -/
def tenBs : List Nat := List.replicate 10 98

/-! # Theorems

Helper lemmas first, then one theorem (plus witness or counterexample) per
claim. -/

/-! ## String containment -/

theorem isPrefixB_append (p t : List Char) : isPrefixB p (p ++ t) = true := by
  induction p with
  | nil => rfl
  | cons a as_ ih => simp [isPrefixB, ih]

theorem containsB_here (pat t : List Char) : containsB pat (pat ++ t) = true := by
  cases pat with
  | nil =>
    cases t with
    | nil => rfl
    | cons b bs => simp [containsB, isPrefixB]
  | cons a as_ =>
    simp only [containsB, Bool.or_eq_true]
    exact Or.inl (isPrefixB_append (a :: as_) t)

theorem containsB_cons_of (pat : List Char) (c : Char) (t : List Char)
    (h : containsB pat t = true) : containsB pat (c :: t) = true := by
  simp [containsB, h]

theorem containsB_append_of (pat x t : List Char) (h : containsB pat t = true) :
    containsB pat (x ++ t) = true := by
  induction x with
  | nil => simpa
  | cons c cs ih => simpa [List.cons_append] using containsB_cons_of pat c _ ih

theorem strContains_of_mid (x pat y : String) : strContains (x ++ pat ++ y) pat = true := by
  show containsB pat.data (x ++ pat ++ y).data = true
  rw [String.data_append, String.data_append, List.append_assoc]
  exact containsB_append_of _ _ _ (containsB_here _ _)

theorem foldl_append_exists {α : Type} (g : α → String) (l : List α) (i : String) :
    ∃ y, l.foldl (fun s c => s ++ g c) i = i ++ y := by
  induction l generalizing i with
  | nil => exact ⟨"", by simp⟩
  | cons a as_ ih =>
    obtain ⟨y, hy⟩ := ih (i ++ g a)
    exact ⟨g a ++ y, by simp [hy, String.append_assoc]⟩

theorem foldl_concat_contains {α : Type} (g : α → String) (l : List α) (c : α) :
    ∀ i : String, c ∈ l → strContains (l.foldl (fun s x => s ++ g x) i) (g c) = true := by
  induction l with
  | nil => intro i h; cases h
  | cons a as_ ih =>
    intro i h
    rw [List.foldl_cons]
    rcases List.mem_cons.mp h with rfl | hmem
    · obtain ⟨y, hy⟩ := foldl_append_exists g as_ (i ++ g c)
      rw [hy]
      exact strContains_of_mid i (g c) y
    · exact ih _ hmem

/-! ## Association lists -/

theorem containsKey_iff_mem_keys {α : Type} (m : List (String × α)) (k : String) :
    containsKey m k = true ↔ k ∈ m.map Prod.fst := by
  simp [containsKey, List.any_eq_true, List.mem_map, beq_iff_eq]

theorem containsKey_of_mem {α : Type} {m : List (String × α)} {k : String} {v : α}
    (h : (k, v) ∈ m) : containsKey m k = true :=
  (containsKey_iff_mem_keys m k).mpr (List.mem_map.mpr ⟨(k, v), h, rfl⟩)

theorem containsKey_of_getValue_some {α : Type} {m : List (String × α)} {k : String} {v : α}
    (h : getValue m k = some v) : containsKey m k = true := by
  unfold getValue at h
  cases hf : m.find? (fun p => p.1 == k) with
  | none => rw [hf] at h; cases h
  | some p =>
    have hmem := List.mem_of_find?_eq_some hf
    have hpk : p.1 = k := by
      have := List.find?_some hf
      exact beq_iff_eq.mp this
    subst hpk
    exact containsKey_of_mem (v := p.2) (by simpa using hmem)

theorem getValue_eq_some_of_mem {α : Type} {m : List (String × α)} {k : String} {v : α}
    (hnd : (m.map Prod.fst).Nodup) (h : (k, v) ∈ m) : getValue m k = some v := by
  induction m with
  | nil => cases h
  | cons p rest ih =>
    rcases List.mem_cons.mp h with rfl | hmem
    · simp [getValue, List.find?]
    · have hne : p.1 ≠ k := by
        intro hpk
        have : k ∈ rest.map Prod.fst := List.mem_map.mpr ⟨(k, v), hmem, rfl⟩
        rw [List.map_cons, List.nodup_cons] at hnd
        exact hnd.1 (hpk ▸ this)
      have : (p.1 == k) = false := beq_eq_false_iff_ne.mpr hne
      simp only [getValue, List.find?, this]
      exact ih (by rw [List.map_cons, List.nodup_cons] at hnd; exact hnd.2) hmem

theorem getValue_filterMap_eq_none {β : Type} (f : String × Table → Option (String × β))
    (l : List (String × Table)) (n : String)
    (hf : ∀ p q, p ∈ l → f p = some q → q.1 ≠ n) :
    getValue (l.filterMap f) n = none := by
  induction l with
  | nil => rfl
  | cons a rest ih =>
    rw [List.filterMap_cons]
    cases hfa : f a with
    | none => exact ih (fun p q hp => hf p q (List.mem_cons_of_mem a hp))
    | some q =>
      have hne : q.1 ≠ n := hf a q (List.mem_cons_self a rest) hfa
      have : (q.1 == n) = false := beq_eq_false_iff_ne.mpr hne
      simp only [getValue, List.find?, this]
      exact ih (fun p q hp => hf p q (List.mem_cons_of_mem a hp))

theorem getValue_filterMap_of_mem {β : Type} (f : String × Table → Option (String × β))
    (hf : ∀ p q, f p = some q → q.1 = p.1)
    {l : List (String × Table)} (hnd : (l.map Prod.fst).Nodup)
    {tn : String} {tt : Table} (hmem : (tn, tt) ∈ l) :
    getValue (l.filterMap f) tn = (f (tn, tt)).map (·.2) := by
  induction l with
  | nil => cases hmem
  | cons a rest ih =>
    rw [List.map_cons, List.nodup_cons] at hnd
    rcases List.mem_cons.mp hmem with rfl | hmem'
    · rw [List.filterMap_cons]
      cases hq : f (tn, tt) with
      | none =>
        simp only [Option.map_none]
        exact getValue_filterMap_eq_none f rest tn (fun p q hp hpq => by
          intro hqn
          have : q.1 = p.1 := hf p q hpq
          exact hnd.1 (by
            rw [← hqn, this]
            exact List.mem_map.mpr ⟨p, hp, rfl⟩))
      | some q =>
        have hq1 : q.1 = tn := hf _ _ hq
        simp [getValue, List.find?, hq1]
    · have hane : a.1 ≠ tn := by
        intro h
        exact hnd.1 (h ▸ List.mem_map.mpr ⟨(tn, tt), hmem', rfl⟩)
      rw [List.filterMap_cons]
      cases hfa : f a with
      | none => exact ih hnd.2 hmem'
      | some q =>
        have : (q.1 == tn) = false := beq_eq_false_iff_ne.mpr (by
          rw [hf a q hfa]; exact hane)
        simp only [getValue, List.find?, this]
        exact ih hnd.2 hmem'

/-! ## The diff fold -/

theorem generateStep_eq (cur : DatabaseSchema) (cfg : SchemaConfig)
    (A : List (String × List Column)) (B : List (String × List String))
    (C : List (String × List ColumnChange)) (p : String × Table) :
    generateStep cur cfg (A, B, C) p
      = (A ++ (addsOf cur p).toList, B ++ (dropsOf cur cfg p).toList,
         C ++ (altersOf cur cfg p).toList) := by
  unfold generateStep addsOf dropsOf altersOf alterColumnsOf
  cases hg : getValue cur.tables p.1 with
  | none => simp [hg]
  | some ct =>
    simp only [hg]
    split_ifs <;> simp_all

theorem generate_foldl_spec (cur : DatabaseSchema) (cfg : SchemaConfig)
    (l : List (String × Table)) (A : List (String × List Column))
    (B : List (String × List String)) (C : List (String × List ColumnChange)) :
    l.foldl (generateStep cur cfg) (A, B, C)
      = (A ++ l.filterMap (addsOf cur), B ++ l.filterMap (dropsOf cur cfg),
         C ++ l.filterMap (altersOf cur cfg)) := by
  induction l generalizing A B C with
  | nil => simp
  | cons p rest ih =>
    rw [List.foldl_cons, generateStep_eq, ih]
    simp only [List.filterMap_cons]
    cases h1 : addsOf cur p <;> cases h2 : dropsOf cur cfg p <;>
      cases h3 : altersOf cur cfg p <;> simp [h1, h2, h3]

/-! ## Column lookups -/

theorem colContains_self {cols : List Column} {c : Column} (h : c ∈ cols) :
    colContains cols c.name = true :=
  List.any_eq_true.mpr ⟨c, h, beq_self_eq_true c.name⟩

theorem find?_name_self {l : List Column} {c : Column}
    (hnd : (l.map Column.name).Nodup) (h : c ∈ l) :
    l.find? (fun x => x.name == c.name) = some c := by
  induction l with
  | nil => cases h
  | cons a rest ih =>
    rw [List.map_cons, List.nodup_cons] at hnd
    rcases List.mem_cons.mp h with rfl | hmem
    · simp [List.find?]
    · have hne : a.name ≠ c.name := by
        intro he
        exact hnd.1 (he ▸ List.mem_map.mpr ⟨c, hmem, rfl⟩)
      have : (a.name == c.name) = false := beq_eq_false_iff_ne.mpr hne
      simp only [List.find?, this]
      exact ih hnd.2 hmem

theorem colFind_self {cols : List Column} {c : Column}
    (hnd : (cols.map Column.name).Nodup) (h : c ∈ cols) :
    colFind cols c.name = some c := by
  unfold colFind
  exact find?_name_self (by rw [List.map_reverse]; exact List.nodup_reverse.mpr hnd)
    (List.mem_reverse.mpr h)

theorem column_needs_alteration_refl (c : Column) (cfg : SchemaConfig) :
    column_needs_alteration c c cfg = false := by
  simp [column_needs_alteration]

/-- `column_needs_alteration` is the independent OR of the four field
comparisons (data type, nullability, default, uniqueness). -/
theorem column_needs_alteration_eq_or (current target : Column) (cfg : SchemaConfig) :
    column_needs_alteration current target cfg
      = (current.data_type != target.data_type || current.nullable != target.nullable
         || current.default != target.default || current.is_unique != target.is_unique) := by
  unfold column_needs_alteration
  split_ifs <;> simp_all

/-! ## C1 — diffing a schema against itself is empty -/

/-- C1: for every well-formed schema (tables keyed by their own name, unique
table keys, unique column names per table) and every policy, diffing the
schema against itself yields a diff for which `is_empty` is true — all nine
change collections are empty. -/
theorem diff_identical_schema_is_empty (S : DatabaseSchema) (cfg : SchemaConfig)
    (hkeys : ∀ p ∈ S.tables, Table.name p.2 = p.1)
    (hnd : (S.tables.map Prod.fst).Nodup)
    (hcols : ∀ p ∈ S.tables, ((Table.columns p.2).map Column.name).Nodup) :
    (SchemaDiff.generate S S cfg).is_empty = true := by
  have hcreate : (S.tables.map Prod.snd).filter
      (fun table => !(containsKey S.tables table.name)) = [] := by
    apply List.filter_eq_nil_iff.mpr
    intro t ht
    obtain ⟨p, hp, rfl⟩ := List.mem_map.mp ht
    have hck : containsKey S.tables p.1 = true := containsKey_of_mem hp
    simp [hkeys p hp, hck]
  have hdropt : ((S.tables.map Prod.fst).filter
      (fun name => !(containsKey S.tables name))) = [] := by
    apply List.filter_eq_nil_iff.mpr
    intro k hk
    simp [(containsKey_iff_mem_keys _ _).mpr hk]
  have hself : ∀ p ∈ S.tables, getValue S.tables p.1 = some p.2 := fun p hp =>
    getValue_eq_some_of_mem hnd hp
  have hadds : S.tables.filterMap (addsOf S) = [] := by
    apply List.filterMap_eq_nil_iff.mpr
    intro p hp
    have hfil : p.2.columns.filter (fun col => !(colContains p.2.columns col.name)) = [] :=
      List.filter_eq_nil_iff.mpr (fun c hc => by simp [colContains_self hc])
    simp [addsOf, hself p hp, hfil]
  have hdrops : S.tables.filterMap (dropsOf S cfg) = [] := by
    apply List.filterMap_eq_nil_iff.mpr
    intro p hp
    have hfil : p.2.columns.filter (fun col => !(colContains p.2.columns col.name)) = [] :=
      List.filter_eq_nil_iff.mpr (fun c hc => by simp [colContains_self hc])
    simp [dropsOf, hself p hp, hfil]
  have halters : S.tables.filterMap (altersOf S cfg) = [] := by
    apply List.filterMap_eq_nil_iff.mpr
    intro p hp
    have hfil : alterColumnsOf cfg p.2 p.2 = [] := by
      apply List.filterMap_eq_nil_iff.mpr
      intro c hc
      simp [colFind_self (hcols p hp) hc, column_needs_alteration_refl]
    simp [altersOf, hself p hp, hfil]
  simp [SchemaDiff.generate, SchemaDiff.is_empty, generate_foldl_spec, hcreate, hdropt,
    hadds, hdrops, halters]

/-- C1 witness: a concrete two-table schema diffed against itself. -/
theorem diff_identical_schema_is_empty_witness :
    (∀ p ∈ schemaUsersPosts.tables, Table.name p.2 = p.1)
    ∧ (schemaUsersPosts.tables.map Prod.fst).Nodup
    ∧ (∀ p ∈ schemaUsersPosts.tables, ((Table.columns p.2).map Column.name).Nodup)
    ∧ (SchemaDiff.generate schemaUsersPosts schemaUsersPosts policyNoRemoval).is_empty
        = true :=
  ⟨by decide, by decide, by decide,
   diff_identical_schema_is_empty schemaUsersPosts policyNoRemoval
     (by decide) (by decide) (by decide)⟩

/-! ## C2 — `allow_table_removal = false` forces empty `tables_to_drop` -/

/-- C2: with `allow_table_removal = false`, `SchemaDiff::generate` produces an
empty `tables_to_drop` for every pair of schemas, regardless of how many
tables exist only in the current schema. -/
theorem no_table_drops_when_disallowed (cur tgt : DatabaseSchema) (cfg : SchemaConfig)
    (h : cfg.allow_table_removal = false) :
    (SchemaDiff.generate cur tgt cfg).tables_to_drop = [] := by
  simp [SchemaDiff.generate, h]

/-- C2 witness: the current schema has a table (`posts`) absent from the
target, yet nothing is scheduled for dropping. -/
theorem no_table_drops_when_disallowed_witness :
    policyNoRemoval.allow_table_removal = false
    ∧ containsKey schemaUsers.tables "posts" = false
    ∧ containsKey schemaUsersPosts.tables "posts" = true
    ∧ (SchemaDiff.generate schemaUsersPosts schemaUsers policyNoRemoval).tables_to_drop
        = [] :=
  ⟨rfl, by decide, by decide,
   no_table_drops_when_disallowed schemaUsersPosts schemaUsers policyNoRemoval rfl⟩

/-! ## Field characterizations of the generated diff -/

theorem generate_columns_to_add (cur tgt : DatabaseSchema) (cfg : SchemaConfig) :
    (SchemaDiff.generate cur tgt cfg).columns_to_add
      = tgt.tables.filterMap (addsOf cur) := by
  simp [SchemaDiff.generate, generate_foldl_spec]

theorem generate_columns_to_drop (cur tgt : DatabaseSchema) (cfg : SchemaConfig) :
    (SchemaDiff.generate cur tgt cfg).columns_to_drop
      = tgt.tables.filterMap (dropsOf cur cfg) := by
  simp [SchemaDiff.generate, generate_foldl_spec]

theorem generate_columns_to_alter (cur tgt : DatabaseSchema) (cfg : SchemaConfig) :
    (SchemaDiff.generate cur tgt cfg).columns_to_alter
      = tgt.tables.filterMap (altersOf cur cfg) := by
  simp [SchemaDiff.generate, generate_foldl_spec]

/-! ## C3 — `columns_to_alter` characterization -/

theorem filter_byname_filterMap (f : Column → Option ColumnChange)
    (hf : ∀ c ch, f c = some ch → ch.column_name = c.name) (n : String) (l : List Column) :
    (l.filterMap f).filter (fun ch => ch.column_name == n)
      = (l.filter (fun c => c.name == n)).filterMap f := by
  induction l with
  | nil => rfl
  | cons a rest ih =>
    rw [List.filterMap_cons, List.filter_cons]
    cases hfa : f a with
    | none =>
      by_cases hn : (a.name == n) = true <;>
        simp [hn, List.filterMap_cons, hfa, ih]
    | some ch =>
      have hc : ch.column_name = a.name := hf a ch hfa
      by_cases hn : (a.name == n) = true
      · simp [hn, List.filter_cons, List.filterMap_cons, hfa, hc, ih]
      · have : (ch.column_name == n) = false := by
          rw [hc]; simpa using hn
        simp [hn, this, List.filter_cons, ih]

theorem filter_name_single {l : List Column} {tc : Column}
    (hnd : (l.map Column.name).Nodup) (h : tc ∈ l) :
    l.filter (fun c => c.name == tc.name) = [tc] := by
  induction l with
  | nil => cases h
  | cons a rest ih =>
    rw [List.map_cons, List.nodup_cons] at hnd
    rw [List.filter_cons]
    rcases List.mem_cons.mp h with rfl | hmem
    · have hrest : rest.filter (fun c => c.name == tc.name) = [] := by
        apply List.filter_eq_nil_iff.mpr
        intro c hc hcc
        exact hnd.1 (beq_iff_eq.mp hcc ▸ List.mem_map.mpr ⟨c, hc, rfl⟩)
      simp [hrest]
    · have hne : (a.name == tc.name) = false := beq_eq_false_iff_ne.mpr (by
        intro he
        exact hnd.1 (he ▸ List.mem_map.mpr ⟨tc, hmem, rfl⟩))
      simp [hne, ih hnd.2 hmem]

theorem altersOf_key {cur : DatabaseSchema} {cfg : SchemaConfig} :
    ∀ p q, altersOf cur cfg p = some q → q.1 = p.1 := by
  intro p q hq
  unfold altersOf at hq
  cases hg : getValue cur.tables p.1 <;> rw [hg] at hq <;> dsimp only at hq
  · cases hq
  · split_ifs at hq
    cases hq
    rfl

/-- C3: for a column name present in the same table of both schemas, the
table's `columns_to_alter` entry contains exactly one change for that column
when any of the four compared fields differ (with `from` the current column
and `to` the target column, verbatim), and none otherwise; membership in the
alter list is equivalent to `column_needs_alteration`, which is itself the
independent OR of the data-type, nullability, default and uniqueness
comparisons. -/
theorem columns_to_alter_characterization
    (current_schema target_schema : DatabaseSchema) (cfg : SchemaConfig)
    (tn : String) (ct tt : Table) (cc tc : Column)
    (hndtgt : (target_schema.tables.map Prod.fst).Nodup)
    (hmem : (tn, tt) ∈ target_schema.tables)
    (hcur : getValue current_schema.tables tn = some ct)
    (hndc : (ct.columns.map Column.name).Nodup)
    (hndt : (tt.columns.map Column.name).Nodup)
    (hccm : cc ∈ ct.columns) (htcm : tc ∈ tt.columns)
    (hname : cc.name = tc.name) :
    ((getValueD (SchemaDiff.generate current_schema target_schema cfg).columns_to_alter
        tn []).filter (fun ch => ch.column_name == tc.name)
      = if column_needs_alteration cc tc cfg then
          [{ column_name := tc.name, from_ := cc, to_ := tc }] else [])
    ∧ ((∃ ch ∈ getValueD
          (SchemaDiff.generate current_schema target_schema cfg).columns_to_alter tn [],
          ch.column_name = tc.name) ↔ column_needs_alteration cc tc cfg = true)
    ∧ column_needs_alteration cc tc cfg
        = (cc.data_type != tc.data_type || cc.nullable != tc.nullable
           || cc.default != tc.default || cc.is_unique != tc.is_unique) := by
  have hgen : (SchemaDiff.generate current_schema target_schema cfg).columns_to_alter
      = target_schema.tables.filterMap (altersOf current_schema cfg) := by
    simp [SchemaDiff.generate, generate_foldl_spec]
  have hlook : getValue (target_schema.tables.filterMap (altersOf current_schema cfg)) tn
      = (altersOf current_schema cfg (tn, tt)).map (·.2) :=
    getValue_filterMap_of_mem _ altersOf_key hndtgt hmem
  have hred : (getValueD (SchemaDiff.generate current_schema target_schema cfg).columns_to_alter
        tn []).filter (fun ch => ch.column_name == tc.name)
      = (alterColumnsOf cfg ct tt).filter (fun ch => ch.column_name == tc.name) := by
    rw [getValueD, hgen, hlook]
    unfold altersOf
    rw [hcur]
    by_cases he : (alterColumnsOf cfg ct tt).isEmpty
    · have : alterColumnsOf cfg ct tt = [] := by
        cases hx : alterColumnsOf cfg ct tt
        · rfl
        · rw [hx] at he; cases he
      simp [this]
    · simp [he]
  have hf2 : ∀ (c : Column) (ch : ColumnChange),
      (fun (target_col : Column) =>
        match colFind ct.columns target_col.name with
        | some current_col =>
          if column_needs_alteration current_col target_col cfg then
            some { column_name := target_col.name, from_ := current_col, to_ := target_col }
          else none
        | none => none) c = some ch → ch.column_name = c.name := by
    intro c ch hc
    dsimp only at hc
    cases hg : colFind ct.columns c.name <;> rw [hg] at hc <;> dsimp only at hc
    · cases hc
    · split_ifs at hc
      cases hc
      rfl
  have hfind : colFind ct.columns tc.name = some cc := hname ▸ colFind_self hndc hccm
  have hmain : (alterColumnsOf cfg ct tt).filter (fun ch => ch.column_name == tc.name)
      = if column_needs_alteration cc tc cfg then
          [{ column_name := tc.name, from_ := cc, to_ := tc }] else [] := by
    unfold alterColumnsOf
    rw [filter_byname_filterMap _ hf2, filter_name_single hndt htcm,
      List.filterMap_cons, List.filterMap_nil]
    rw [hfind]
    by_cases hna : column_needs_alteration cc tc cfg = true <;> simp [hna]
  refine ⟨hred.trans hmain, ?_, column_needs_alteration_eq_or cc tc cfg⟩
  constructor
  · rintro ⟨ch, hch, hchn⟩
    by_contra hno
    have hfalse : column_needs_alteration cc tc cfg = false := by
      cases hx : column_needs_alteration cc tc cfg
      · rfl
      · exact absurd hx hno
    have : ch ∈ (getValueD
        (SchemaDiff.generate current_schema target_schema cfg).columns_to_alter
        tn []).filter (fun ch => ch.column_name == tc.name) :=
      List.mem_filter.mpr ⟨hch, beq_iff_eq.mpr hchn⟩
    rw [hred.trans hmain, hfalse] at this
    simp at this
  · intro hyes
    have : { column_name := tc.name, from_ := cc, to_ := tc } ∈
        (getValueD (SchemaDiff.generate current_schema target_schema cfg).columns_to_alter
          tn []).filter (fun ch => ch.column_name == tc.name) := by
      rw [hred.trans hmain, hyes]
      simp
    have hm := List.mem_filter.mp this
    exact ⟨_, hm.1, beq_iff_eq.mp hm.2⟩

/-- C3 witness: `users.name` differs only in the nullable flag between the
two schemas, and the alter list for `users` contains exactly that change. -/
theorem columns_to_alter_characterization_witness :
    ((getValueD (SchemaDiff.generate schemaUsers schemaUsersPosts
        policyNoRemoval).columns_to_alter "users" []).filter
        (fun ch => ch.column_name == colNameColNullable.name)
      = if column_needs_alteration colNameCol colNameColNullable policyNoRemoval then
          [{ column_name := colNameColNullable.name, from_ := colNameCol,
             to_ := colNameColNullable }]
        else [])
    ∧ column_needs_alteration colNameCol colNameColNullable policyNoRemoval = true
    ∧ colNameColNullable.name = "name" :=
  ⟨(columns_to_alter_characterization schemaUsers schemaUsersPosts policyNoRemoval
      "users" usersTable usersTableNullable colNameCol colNameColNullable
      (by decide) (by decide) (by decide) (by decide) (by decide)
      (by decide) (by decide) (by decide)).1,
   by decide, by decide⟩

/-! ## C4 — a target-only table is created verbatim and appears nowhere else -/

/-- C4: every table of the target schema whose name is absent from the current
schema appears verbatim in `tables_to_create`, its name is not in
`tables_to_drop`, it keys no per-table column change map, and the index /
foreign-key collections are empty. -/
theorem target_only_table_created_verbatim
    (cur tgt : DatabaseSchema) (cfg : SchemaConfig) (k : String) (t : Table)
    (hmem : (k, t) ∈ tgt.tables)
    (habs : containsKey cur.tables t.name = false) :
    t ∈ (SchemaDiff.generate cur tgt cfg).tables_to_create
    ∧ t.name ∉ (SchemaDiff.generate cur tgt cfg).tables_to_drop
    ∧ getValue (SchemaDiff.generate cur tgt cfg).columns_to_add t.name = none
    ∧ getValue (SchemaDiff.generate cur tgt cfg).columns_to_drop t.name = none
    ∧ getValue (SchemaDiff.generate cur tgt cfg).columns_to_alter t.name = none
    ∧ (SchemaDiff.generate cur tgt cfg).indices_to_create = []
    ∧ (SchemaDiff.generate cur tgt cfg).indices_to_drop = []
    ∧ (SchemaDiff.generate cur tgt cfg).foreign_keys_to_create = []
    ∧ (SchemaDiff.generate cur tgt cfg).foreign_keys_to_drop = [] := by
  have hkeymap : ∀ (β : Type) (f : String × Table → Option (String × β)),
      (∀ p q, f p = some q → q.1 = p.1 ∧ containsKey cur.tables p.1 = true) →
      getValue (tgt.tables.filterMap f) t.name = none := by
    intro β f hf
    apply getValue_filterMap_eq_none
    intro p q _ hq he
    obtain ⟨h1, h2⟩ := hf p q hq
    rw [← h1, he, habs] at h2
    cases h2
  refine ⟨?_, ?_, ?_, ?_, ?_, ?_, ?_, ?_, ?_⟩
  · show t ∈ (tgt.tables.map Prod.snd).filter _
    exact List.mem_filter.mpr ⟨List.mem_map.mpr ⟨(k, t), hmem, rfl⟩, by simp [habs]⟩
  · show t.name ∉ (if cfg.allow_table_removal = true then _ else _)
    split
    · intro hin
      have := List.mem_filter.mp hin
      have hkey : containsKey cur.tables t.name = true :=
        (containsKey_iff_mem_keys _ _).mpr this.1
      rw [habs] at hkey
      cases hkey
    · simp
  · rw [generate_columns_to_add]
    apply hkeymap
    intro p q hq
    unfold addsOf at hq
    cases hg : getValue cur.tables p.1 <;> rw [hg] at hq <;> dsimp only at hq
    · cases hq
    · split_ifs at hq
      cases hq
      exact ⟨rfl, containsKey_of_getValue_some hg⟩
  · rw [generate_columns_to_drop]
    apply hkeymap
    intro p q hq
    unfold dropsOf at hq
    cases hg : getValue cur.tables p.1 <;> rw [hg] at hq <;> dsimp only at hq
    · cases hq
    · split_ifs at hq
      cases hq
      exact ⟨rfl, containsKey_of_getValue_some hg⟩
  · rw [generate_columns_to_alter]
    apply hkeymap
    intro p q hq
    unfold altersOf at hq
    cases hg : getValue cur.tables p.1 <;> rw [hg] at hq <;> dsimp only at hq
    · cases hq
    · split_ifs at hq
      cases hq
      exact ⟨rfl, containsKey_of_getValue_some hg⟩
  · rfl
  · rfl
  · rfl
  · rfl

/-- C4 witness: `posts` exists only in the target schema. -/
theorem target_only_table_created_verbatim_witness :
    postsTable ∈ (SchemaDiff.generate schemaUsers schemaUsersPosts
        policyNoRemoval).tables_to_create
    ∧ postsTable.name ∉ (SchemaDiff.generate schemaUsers schemaUsersPosts
        policyNoRemoval).tables_to_drop
    ∧ getValue (SchemaDiff.generate schemaUsers schemaUsersPosts
        policyNoRemoval).columns_to_add postsTable.name = none := by
  have h := target_only_table_created_verbatim schemaUsers schemaUsersPosts policyNoRemoval
    "posts" postsTable (by decide) (by decide)
  exact ⟨h.1, h.2.1, h.2.2.1⟩

/-! ## C6 — type-mapping resolution order -/

/-- C6: `map_type_to_db_type` resolves in tier order — a first exact match in
the configured custom mapping list wins, then an exact match in the override
map, then the built-in defaults (with `i32 → INTEGER`, `String →
VARCHAR(255)`, `bool → BOOLEAN`); a type matching no default arm yields a
type-mapping error whose message names the unresolved type. -/
theorem map_type_resolution_order (config : Config) (rust_type : String) :
    (∀ m, customMatch config rust_type = some m →
        map_type_to_db_type rust_type config = .ok m.db_type)
    ∧ (customMatch config rust_type = none →
        ∀ d, overrideMatch config rust_type = some d →
          map_type_to_db_type rust_type config = .ok d)
    ∧ (customMatch config rust_type = none → overrideMatch config rust_type = none →
        map_type_to_db_type rust_type config = default_type_mapping rust_type)
    ∧ default_type_mapping "i32" = .ok "INTEGER"
    ∧ default_type_mapping "String" = .ok "VARCHAR(255)"
    ∧ default_type_mapping "bool" = .ok "BOOLEAN"
    ∧ ((∃ s, default_type_mapping rust_type = .ok s)
        ∨ default_type_mapping rust_type
            = .error (.TypeMappingError ("No mapping found for Rust type: " ++ rust_type))) := by
  refine ⟨?_, ?_, ?_, rfl, rfl, rfl, ?_⟩
  · intro m hm
    unfold map_type_to_db_type
    rw [hm]
  · intro hc d hd
    unfold map_type_to_db_type
    rw [hc, hd]
  · intro hc hd
    unfold map_type_to_db_type
    rw [hc, hd]
  · unfold default_type_mapping
    by_cases h1 : (rust_type == "String" || rust_type == "&str") = true
    · rw [if_pos h1]; exact Or.inl ⟨_, rfl⟩
    rw [if_neg h1]
    by_cases h2 : (rust_type == "i8") = true
    · rw [if_pos h2]; exact Or.inl ⟨_, rfl⟩
    rw [if_neg h2]
    by_cases h3 : (rust_type == "i16") = true
    · rw [if_pos h3]; exact Or.inl ⟨_, rfl⟩
    rw [if_neg h3]
    by_cases h4 : (rust_type == "i32") = true
    · rw [if_pos h4]; exact Or.inl ⟨_, rfl⟩
    rw [if_neg h4]
    by_cases h5 : (rust_type == "i64") = true
    · rw [if_pos h5]; exact Or.inl ⟨_, rfl⟩
    rw [if_neg h5]
    by_cases h6 : (rust_type == "u8" || rust_type == "u16" || rust_type == "u32") = true
    · rw [if_pos h6]; exact Or.inl ⟨_, rfl⟩
    rw [if_neg h6]
    by_cases h7 : (rust_type == "u64") = true
    · rw [if_pos h7]; exact Or.inl ⟨_, rfl⟩
    rw [if_neg h7]
    by_cases h8 : (rust_type == "f32") = true
    · rw [if_pos h8]; exact Or.inl ⟨_, rfl⟩
    rw [if_neg h8]
    by_cases h9 : (rust_type == "f64") = true
    · rw [if_pos h9]; exact Or.inl ⟨_, rfl⟩
    rw [if_neg h9]
    by_cases h10 : (rust_type == "bool") = true
    · rw [if_pos h10]; exact Or.inl ⟨_, rfl⟩
    rw [if_neg h10]
    by_cases h11 : strContains rust_type "Vec<u8>" = true
    · rw [if_pos h11]; exact Or.inl ⟨_, rfl⟩
    rw [if_neg h11]
    by_cases h12 : strContains rust_type "DateTime" = true
    · rw [if_pos h12]; exact Or.inl ⟨_, rfl⟩
    rw [if_neg h12]
    by_cases h13 : strContains rust_type "NaiveDateTime" = true
    · rw [if_pos h13]; exact Or.inl ⟨_, rfl⟩
    rw [if_neg h13]
    by_cases h14 : strContains rust_type "NaiveDate" = true
    · rw [if_pos h14]; exact Or.inl ⟨_, rfl⟩
    rw [if_neg h14]
    by_cases h15 : strContains rust_type "Uuid" = true
    · rw [if_pos h15]; exact Or.inl ⟨_, rfl⟩
    rw [if_neg h15]
    by_cases h16 : strContains rust_type "Decimal" = true
    · rw [if_pos h16]; exact Or.inl ⟨_, rfl⟩
    rw [if_neg h16]
    by_cases h17 : (strContains rust_type "Json" || strContains rust_type "Value") = true
    · rw [if_pos h17]; exact Or.inl ⟨_, rfl⟩
    rw [if_neg h17]
    exact Or.inr rfl

/-- C6 witness: a custom mapping `i32 → SERIAL` beats both the configured
override (`i32 → BIGINT`) and the built-in default (`i32 → INTEGER`). -/
theorem map_type_resolution_order_witness :
    customMatch exConfigCustom "i32" = some { rust_type := "i32", db_type := "SERIAL" }
    ∧ overrideMatch exConfigCustom "i32" = some "BIGINT"
    ∧ map_type_to_db_type "i32" exConfigCustom = .ok "SERIAL" :=
  ⟨by decide, by decide,
   (map_type_resolution_order exConfigCustom "i32").1
     { rust_type := "i32", db_type := "SERIAL" } (by decide)⟩

/-! ## C5 — dialect gating of column drops -/

/-- C5: for a non-empty set of columns to drop, generating the drop-columns
unit against the SQLite dialect fails with a `MigrationError` whose message
mentions recreating the table (no SQL is produced for the unit), while the
Postgres and MySQL dialects succeed and the generated unit contains an
`ALTER TABLE … DROP COLUMN …` statement for every dropped column. -/
theorem drop_columns_dialect_gating
    (cfgS cfgP cfgM : Config) (table_name : String) (column_names : List String)
    (hS : cfgS.database.driver = "sqlite") (hP : cfgP.database.driver = "postgres")
    (hM : cfgM.database.driver = "mysql") (hne : column_names ≠ []) :
    (∃ msg, generate_drop_columns_sql cfgS table_name column_names
        = .error (.MigrationError msg) ∧ strContains msg "recreate the table" = true)
    ∧ (∃ sql, generate_drop_columns_sql cfgP table_name column_names = .ok sql
        ∧ ∀ c ∈ column_names,
            strContains sql ("ALTER TABLE " ++ table_name ++ " DROP COLUMN " ++ c ++ ";\n")
              = true)
    ∧ (∃ sql, generate_drop_columns_sql cfgM table_name column_names = .ok sql
        ∧ ∀ c ∈ column_names,
            strContains sql ("ALTER TABLE " ++ bt table_name ++ " DROP COLUMN " ++ bt c
              ++ ";\n") = true) := by
  refine ⟨⟨"SQLite does not support dropping columns directly. "
      ++ "You need to recreate the table without those columns.", ?_, by decide⟩,
    ⟨column_names.foldl (fun sql column_name => sql ++ "ALTER TABLE " ++ table_name
        ++ " DROP COLUMN " ++ column_name ++ ";\n") "", ?_, ?_⟩,
    ⟨column_names.foldl (fun sql column_name => sql ++ "ALTER TABLE " ++ bt table_name
        ++ " DROP COLUMN " ++ bt column_name ++ ";\n") "", ?_, ?_⟩⟩
  · unfold generate_drop_columns_sql
    rw [hS]
    rfl
  · unfold generate_drop_columns_sql
    rw [hP]
    rfl
  · intro c hc
    have hfun : (fun sql column_name => sql ++ "ALTER TABLE " ++ table_name
          ++ " DROP COLUMN " ++ column_name ++ ";\n")
        = (fun (sql : String) (column_name : String) => sql
            ++ ("ALTER TABLE " ++ table_name ++ " DROP COLUMN " ++ column_name ++ ";\n")) := by
      funext s x
      simp [String.append_assoc]
    rw [hfun]
    exact foldl_concat_contains
      (fun c => "ALTER TABLE " ++ table_name ++ " DROP COLUMN " ++ c ++ ";\n")
      column_names c "" hc
  · unfold generate_drop_columns_sql
    rw [hM]
    rfl
  · intro c hc
    have hfun : (fun sql column_name => sql ++ "ALTER TABLE " ++ bt table_name
          ++ " DROP COLUMN " ++ bt column_name ++ ";\n")
        = (fun (sql : String) (column_name : String) => sql
            ++ ("ALTER TABLE " ++ bt table_name ++ " DROP COLUMN " ++ bt column_name
              ++ ";\n")) := by
      funext s x
      simp [String.append_assoc]
    rw [hfun]
    exact foldl_concat_contains
      (fun c => "ALTER TABLE " ++ bt table_name ++ " DROP COLUMN " ++ bt c ++ ";\n")
      column_names c "" hc

/-- C5 witness: dropping `users.age` on each of the three dialects. -/
theorem drop_columns_dialect_gating_witness :
    (∃ msg, generate_drop_columns_sql (exConfig "sqlite") "users" ["age"]
        = .error (.MigrationError msg) ∧ strContains msg "recreate the table" = true)
    ∧ (∃ sql, generate_drop_columns_sql (exConfig "postgres") "users" ["age"] = .ok sql
        ∧ ∀ c ∈ ["age"],
            strContains sql ("ALTER TABLE " ++ "users" ++ " DROP COLUMN " ++ c ++ ";\n")
              = true) := by
  have h := drop_columns_dialect_gating (exConfig "sqlite") (exConfig "postgres")
    (exConfig "mysql") "users" ["age"] rfl rfl rfl (by decide)
  exact ⟨h.1, h.2.1⟩

/-! ## C7 — phase order of `generate_migration_sql` -/

/-- C7: whenever SQL generation succeeds, the emitted units decompose as the
concatenation of the nine phases in exactly the source's order — table
creations, table drops, column additions, column drops, column alterations,
index creations, index drops, foreign-key creations, foreign-key drops. -/
theorem generate_migration_sql_phase_order (config : Config) (diff : SchemaDiff)
    (units : List String) (h : generate_migration_sql config diff = .ok units) :
    ∃ creates drops col_adds col_drops col_alters idx_creates idx_drops
      fk_creates fk_drops,
      diff.tables_to_create.mapM (fun table => generate_create_table_sql config table)
        = .ok creates
      ∧ diff.tables_to_drop.mapM (fun table_name => generate_drop_table_sql config table_name)
        = .ok drops
      ∧ diff.columns_to_add.mapM (fun p => generate_add_columns_sql config p.1 p.2)
        = .ok col_adds
      ∧ diff.columns_to_drop.mapM (fun p => generate_drop_columns_sql config p.1 p.2)
        = .ok col_drops
      ∧ diff.columns_to_alter.mapM (fun p => generate_alter_columns_sql config p.1 p.2)
        = .ok col_alters
      ∧ diff.indices_to_create.mapM (fun p => indexCreateUnit config diff p.1 p.2)
        = .ok idx_creates
      ∧ diff.indices_to_drop.mapM (fun p => generate_drop_indices_sql config p.1 p.2)
        = .ok idx_drops
      ∧ diff.foreign_keys_to_create.mapM (fun p => fkCreateUnit config diff p.1 p.2)
        = .ok fk_creates
      ∧ diff.foreign_keys_to_drop.mapM (fun p => generate_drop_foreign_keys_sql config p.1 p.2)
        = .ok fk_drops
      ∧ units = creates ++ drops ++ col_adds ++ col_drops ++ col_alters
          ++ idx_creates.flatten ++ idx_drops ++ fk_creates.flatten ++ fk_drops := by
  unfold generate_migration_sql at h
  simp only [bind, Except.bind] at h
  cases h1 : diff.tables_to_create.mapM
      (fun table => generate_create_table_sql config table) <;> rw [h1] at h
  · cases h
  cases h2 : diff.tables_to_drop.mapM
      (fun table_name => generate_drop_table_sql config table_name) <;> rw [h2] at h
  · cases h
  cases h3 : diff.columns_to_add.mapM
      (fun p => generate_add_columns_sql config p.1 p.2) <;> rw [h3] at h
  · cases h
  cases h4 : diff.columns_to_drop.mapM
      (fun p => generate_drop_columns_sql config p.1 p.2) <;> rw [h4] at h
  · cases h
  cases h5 : diff.columns_to_alter.mapM
      (fun p => generate_alter_columns_sql config p.1 p.2) <;> rw [h5] at h
  · cases h
  cases h6 : diff.indices_to_create.mapM
      (fun p => indexCreateUnit config diff p.1 p.2) <;> rw [h6] at h
  · cases h
  cases h7 : diff.indices_to_drop.mapM
      (fun p => generate_drop_indices_sql config p.1 p.2) <;> rw [h7] at h
  · cases h
  cases h8 : diff.foreign_keys_to_create.mapM
      (fun p => fkCreateUnit config diff p.1 p.2) <;> rw [h8] at h
  · cases h
  cases h9 : diff.foreign_keys_to_drop.mapM
      (fun p => generate_drop_foreign_keys_sql config p.1 p.2) <;> rw [h9] at h
  · cases h
  simp only [pure, Except.pure] at h
  cases h
  exact ⟨_, _, _, _, _, _, _, _, _, rfl, rfl, rfl, rfl, rfl, rfl, rfl, rfl, rfl, rfl⟩

/-- C7 witness: a diff that creates one table and drops one column on the
Postgres dialect generates successfully, and the theorem applies to it. -/
theorem generate_migration_sql_phase_order_witness :
    ∃ units, generate_migration_sql (exConfig "postgres")
        { emptySchemaDiff with
          tables_to_create := [postsTable],
          columns_to_drop := [("users", ["age"])] } = .ok units
      ∧ (∃ (creates drops col_adds col_drops col_alters : List String)
          (idx_creates : List (List String)) (idx_drops : List String)
          (fk_creates : List (List String)) (fk_drops : List String),
          [postsTable].mapM (fun table =>
              generate_create_table_sql (exConfig "postgres") table) = .ok creates
          ∧ ([] : List String).mapM (fun table_name =>
              generate_drop_table_sql (exConfig "postgres") table_name) = .ok drops
          ∧ ([] : List (String × List Column)).mapM (fun p =>
              generate_add_columns_sql (exConfig "postgres") p.1 p.2) = .ok col_adds
          ∧ [("users", ["age"])].mapM (fun p =>
              generate_drop_columns_sql (exConfig "postgres") p.1 p.2) = .ok col_drops
          ∧ ([] : List (String × List ColumnChange)).mapM (fun p =>
              generate_alter_columns_sql (exConfig "postgres") p.1 p.2) = .ok col_alters
          ∧ units = creates ++ drops ++ col_adds ++ col_drops ++ col_alters
              ++ idx_creates.flatten ++ idx_drops ++ fk_creates.flatten ++ fk_drops) := by
  obtain ⟨units, hu⟩ : ∃ units, generate_migration_sql (exConfig "postgres")
      { emptySchemaDiff with
        tables_to_create := [postsTable],
        columns_to_drop := [("users", ["age"])] } = .ok units := ⟨_, rfl⟩
  obtain ⟨c1, c2, c3, c4, c5, c6, c7, c8, c9, g1, g2, g3, g4, g5, g6, g7, g8, g9, geq⟩ :=
    generate_migration_sql_phase_order _ _ _ hu
  exact ⟨units, hu, c1, c2, c3, c4, c5, c6, c7, c8, c9, g1, g2, g3, g4, g5, geq⟩

/-! ## C8 — dry run and database writes -/

/-- C8 counterexample: with `dry_run = true`, the executor
`db::migrations::apply_migrations` still issues a database statement — the
history-table `CREATE TABLE IF NOT EXISTS` of `ensure_migration_history_table`
runs before the dry-run check — contradicting "no database writes of any kind
(no history-table creation)". -/
theorem dry_run_executes_history_table_creation :
    exMigrationsConfig.dry_run = true
    ∧ (db_apply_migrations "20260101000000" ["CREATE TABLE t (x INTEGER);"]
        exMigrationsConfig).executed
      = [ensure_history_table_sql "_schema_sync_history"]
    ∧ (db_apply_migrations "20260101000000" ["CREATE TABLE t (x INTEGER);"]
        exMigrationsConfig).executed ≠ [] := by
  exact ⟨rfl, rfl, by decide⟩

/-- C8 amended: under `dry_run = true` the client entry point
`SchemaSyncClient::apply_migrations` issues no database statements and writes
no files, and the lower-level executor — for any migration list — executes
exactly the history-table creation statement: no migration statement runs and
nothing is recorded in the history table. -/
theorem dry_run_no_statement_execution_or_recording
    (ts : String) (migrations : List String) (config : Config)
    (h : config.migrations.dry_run = true) :
    (client_apply_migrations ts migrations config).executed = []
    ∧ (client_apply_migrations ts migrations config).files = []
    ∧ (db_apply_migrations ts migrations config.migrations).executed
        = [ensure_history_table_sql config.migrations.history_table] := by
  have hfold : ∀ (l : List (Nat × String)) (acc : ExecTrace),
      (l.foldl (applyMigrationStep ts config.migrations) acc).executed = acc.executed := by
    intro l
    induction l with
    | nil => intro acc; rfl
    | cons p rest ih =>
      intro acc
      rw [List.foldl_cons]
      rw [ih]
      simp [applyMigrationStep, h]
  refine ⟨?_, ?_, ?_⟩
  · simp [client_apply_migrations, h]
  · simp [client_apply_migrations, h]
  · unfold db_apply_migrations
    exact hfold _ _

/-- C8 amended witness: a concrete dry run over one migration. -/
theorem dry_run_no_statement_execution_or_recording_witness :
    (exConfig "postgres").migrations.dry_run = true
    ∧ (client_apply_migrations "20260101000000" ["CREATE TABLE t (x INTEGER);"]
        (exConfig "postgres")).executed = []
    ∧ (db_apply_migrations "20260101000000" ["CREATE TABLE t (x INTEGER);"]
        (exConfig "postgres").migrations).executed
      = [ensure_history_table_sql (exConfig "postgres").migrations.history_table] := by
  have h := dry_run_no_statement_execution_or_recording "20260101000000"
    ["CREATE TABLE t (x INTEGER);"] (exConfig "postgres") rfl
  exact ⟨rfl, h.1, h.2.2⟩

/-! ## MD5 digest shape and `truncate_identifier` -/

theorem md5digest_length (msg : List Nat) : (md5digest msg).length = 16 := by
  unfold md5digest wordBytesLE
  simp

theorem length_flatMap_pair {α : Type} (f : α → List Nat) (h : ∀ a, (f a).length = 2)
    (l : List α) : (l.flatMap f).length = 2 * l.length := by
  induction l with
  | nil => rfl
  | cons a rest ih =>
    rw [List.flatMap_cons, List.length_append, ih, h a, List.length_cons]
    omega

theorem md5hexBytes_length (msg : List Nat) : (md5hexBytes msg).length = 32 := by
  unfold md5hexBytes
  rw [length_flatMap_pair (fun b => [hexDigitByte (b / 16), hexDigitByte (b % 16)])
    (fun a => rfl), md5digest_length]

/-- When the name is longer than a `max_length` of at least nine, the
truncated identifier is the kept prefix, an underscore and the first eight
hex digits of the MD5 digest, and its length is exactly `max_length`. -/
theorem truncate_long_eq (name : List Nat) (max_length : Nat) (h9 : 9 ≤ max_length)
    (hgt : max_length < name.length) :
    truncate_identifier name max_length
      = some (name.take (max_length - 9) ++ 95 :: (md5hexBytes name).take 8)
    ∧ (name.take (max_length - 9) ++ 95 :: (md5hexBytes name).take 8).length
        = max_length := by
  have hnotle : ¬ name.length ≤ max_length := not_le.mpr hgt
  have hnot9 : ¬ max_length < 9 := not_lt.mpr h9
  have hkeep : max_length - 9 < name.length := lt_of_le_of_lt (Nat.sub_le _ _) hgt
  constructor
  · simp only [truncate_identifier]
    rw [if_neg hnotle, if_neg hnot9, if_pos hkeep]
  · rw [List.length_append, List.length_cons, List.length_take, List.length_take,
      md5hexBytes_length]
    omega

/-! ## C10 — totality and shape of `truncate_identifier` -/

/-- C10 counterexample: at `max_length = 1` and the two-byte name `ab`, the
`usize` subtraction `max_length - 9` underflows — a panic in debug builds
(modelled as `none`); in release builds the wrapped `keep_length` makes the
function return the whole name plus nine bytes, which also violates the
claimed length `max_length`.  Either way the function is not total with the
claimed shape for every `max_length`. -/
theorem truncate_identifier_underflow_counterexample :
    truncate_identifier [97, 98] 1 = none := rfl

/-- C10 amended: `truncate_identifier` behaves as claimed whenever
`max_length ≥ 9` (which every dialect limit in the code satisfies): a name
that fits is returned unchanged, and a longer name becomes the first
`max_length - 9` bytes, an underscore, and eight hex digits of the name's
MD5 hash — a string of length exactly `max_length`; for `max_length < 9`
the internal subtraction underflows. -/
theorem truncate_identifier_total_above_eight (name : List Nat) (max_length : Nat)
    (h9 : 9 ≤ max_length) :
    (name.length ≤ max_length → truncate_identifier name max_length = some name)
    ∧ (max_length < name.length →
        truncate_identifier name max_length
          = some (name.take (max_length - 9) ++ 95 :: (md5hexBytes name).take 8)
        ∧ ∀ r, truncate_identifier name max_length = some r → r.length = max_length) := by
  constructor
  · intro hle
    simp only [truncate_identifier]
    rw [if_pos hle]
  · intro hgt
    obtain ⟨heq, hlen⟩ := truncate_long_eq name max_length h9 hgt
    refine ⟨heq, ?_⟩
    intro r hr
    rw [heq] at hr
    cases hr
    exact hlen

/-- C10 witness: a ten-byte name truncated to nine bytes. -/
theorem truncate_identifier_total_above_eight_witness :
    9 ≤ 9
    ∧ truncate_identifier tenAs 9
        = some (tenAs.take 0 ++ 95 :: (md5hexBytes tenAs).take 8)
    ∧ (tenAs.take 0 ++ 95 :: (md5hexBytes tenAs).take 8).length = 9 := by
  have h := (truncate_identifier_total_above_eight tenAs 9 (by decide)).2 (by decide)
  exact ⟨by decide, h.1, h.2 _ h.1⟩

/-! ## C9 — truncation collisions -/

set_option maxRecDepth 20000 in
/-- C9 counterexample: two distinct 21-byte names that share their first
eleven bytes and the first eight hex digits of their MD5 digests truncate to
the same identifier at `max_length = 20`, so two different long names *can*
truncate to the same identifier. -/
theorem truncate_identifier_collision_counterexample :
    collisionName1 ≠ collisionName2
    ∧ 20 < collisionName1.length ∧ 20 < collisionName2.length
    ∧ truncate_identifier collisionName1 20 = truncate_identifier collisionName2 20 :=
  ⟨by decide, by decide, by decide, by decide⟩

/-- C9 amended: for `max_length ≥ 9`, both truncations succeed, each result
has length exactly `max_length` (so it fits the limit), and — the hash
fragment being deterministic — two long names collide if and only if they
share both the kept prefix and the first eight hex digits of their MD5
digests (collisions are therefore possible but require a 32-bit hash-fragment
collision on top of an equal prefix). -/
theorem truncate_identifier_collision_characterization
    (n1 n2 : List Nat) (max_length : Nat) (h9 : 9 ≤ max_length)
    (h1 : max_length < n1.length) (h2 : max_length < n2.length) :
    ∃ r1 r2, truncate_identifier n1 max_length = some r1
      ∧ truncate_identifier n2 max_length = some r2
      ∧ r1.length = max_length ∧ r2.length = max_length
      ∧ (r1 = r2 ↔ (n1.take (max_length - 9) = n2.take (max_length - 9)
          ∧ (md5hexBytes n1).take 8 = (md5hexBytes n2).take 8)) := by
  obtain ⟨he1, hl1⟩ := truncate_long_eq n1 max_length h9 h1
  obtain ⟨he2, hl2⟩ := truncate_long_eq n2 max_length h9 h2
  refine ⟨_, _, he1, he2, hl1, hl2, ?_⟩
  constructor
  · intro heq
    have hlen : (n1.take (max_length - 9)).length = (n2.take (max_length - 9)).length := by
      rw [List.length_take, List.length_take]
      omega
    obtain ⟨hpre, htail⟩ := List.append_inj heq hlen
    exact ⟨hpre, by injection htail⟩
  · rintro ⟨hpre, hhash⟩
    rw [hpre, hhash]

/-- C9 witness: two concrete ten-byte names truncated to nine bytes. -/
theorem truncate_identifier_collision_characterization_witness :
    9 ≤ 9 ∧ 9 < tenAs.length ∧ 9 < tenBs.length
    ∧ (∃ r1 r2, truncate_identifier tenAs 9 = some r1
        ∧ truncate_identifier tenBs 9 = some r2
        ∧ r1.length = 9 ∧ r2.length = 9
        ∧ (r1 = r2 ↔ (tenAs.take 0 = tenBs.take 0
            ∧ (md5hexBytes tenAs).take 8 = (md5hexBytes tenBs).take 8))) :=
  ⟨by decide, by decide, by decide,
   truncate_identifier_collision_characterization tenAs tenBs 9
     (by decide) (by decide) (by decide)⟩

end SchemaSync
